import Mathlib

/-!
Verification development for the AIFitnessCoach squat-analysis core.

The embedded code is:
* `src/app/src/utils/CalculateAngle.ts` — the pure angle function
  `calculateAngle`, modelled over the real numbers with JavaScript's `NaN`
  represented by `Option.none` (a JS `number` that is not-a-number is the
  `none` case; every other value is `some`).
* `src/app/src/screens/CameraScreen.js` — the squat repetition state
  machine (`analyzeSquat`, `resetSquatRep`, `resetCounter`, the
  `setTimeout`-based snapshot expiry, and the associated React state),
  modelled as a pure step function on an explicit state record.  JS
  `setTimeout`/`clearTimeout` are modelled by a pool of outstanding
  scheduled tasks `(handle, deadline)` together with the handle stored in
  `squatState.angleDisplayTimer`; timestamps (`Date.now()`) are integer
  milliseconds passed in explicitly.
-/

open Real

namespace CalcAngle

/-- Shallow embedding of `calculateAngle` (CalculateAngle.ts, lines 2–29).
Points are pairs of reals.  In JS, when `magnitudeBA * magnitudeBC` is `0`
the dot product is necessarily `0` as well (a zero magnitude forces a zero
vector), so `cosTheta = 0/0 = NaN`; `Math.max(-1, Math.min(1, NaN))`,
`Math.acos NaN`, `180 - NaN` and `Math.round NaN` all propagate `NaN`.
That `NaN` outcome is the `none` branch.  Otherwise the code clamps the
cosine, takes `acos`, converts to degrees, flips to the exterior angle and
rounds; JS `Math.round` rounds half towards `+∞`, exactly Mathlib's
`round`. -/
noncomputable def calculateAngle (a b c : ℝ × ℝ) : Option ℤ :=
  let vectorBA : ℝ × ℝ := (a.1 - b.1, a.2 - b.2)
  let vectorBC : ℝ × ℝ := (c.1 - b.1, c.2 - b.2)
  let dotProduct := vectorBA.1 * vectorBC.1 + vectorBA.2 * vectorBC.2
  let magnitudeBA := Real.sqrt (vectorBA.1 ^ 2 + vectorBA.2 ^ 2)
  let magnitudeBC := Real.sqrt (vectorBC.1 ^ 2 + vectorBC.2 ^ 2)
  if magnitudeBA * magnitudeBC = 0 then
    none
  else
    let cosTheta := dotProduct / (magnitudeBA * magnitudeBC)
    let clampedCosTheta := max (-1) (min 1 cosTheta)
    let angleInRadians := Real.arccos clampedCosTheta
    let angleInDegrees := angleInRadians * 180 / Real.pi
    some (round (180 - angleInDegrees))

/-- The difference of two 2D points as a vector in the Euclidean plane,
for comparison with Mathlib's unoriented angle. -/
noncomputable def toE2 (p : ℝ × ℝ) : EuclideanSpace ℝ (Fin 2) := ![p.1, p.2]

end CalcAngle

namespace Squat

/-- The three per-frame angle samples produced by the `calculateAngle`
calls of `analyzeSquat` (CameraScreen.js, lines 1050–1067), together with
the knee landmark's normalized x coordinate (`rKnee.x`, used at line
1143).  `calculateAngle` rounds to an integer, so the angles are `ℤ`; the
coordinate is modelled over `ℚ` to keep the machine executable. -/
structure AngleSample where
  kneeAngle : ℤ
  hipAngle : ℤ
  heelAngle : ℤ
  kneeX : ℚ
deriving DecidableEq, Repr

/-- The `currentAngles` React state (CameraScreen.js, lines 896–909). -/
structure CurrentAngles where
  kneeAngle : ℤ
  hipAngle : ℤ
  heelAngle : ℤ
  minKneeAngle : ℤ
  minHipAngle : ℤ
  hipAnkleDiff : ℚ
  maxKneeAngle : ℤ
  maxHipAngle : ℤ
  maxHeelAngle : ℤ
  minHipAnkleDiff : ℚ
  maxKneeForward : ℚ
deriving DecidableEq, Repr

/-- The `displayAngles` React state (CameraScreen.js, lines 912–924): the
live view, or the snapshot frozen at the last completed repetition while
`showingLastRep` is true. -/
structure DisplayAngles where
  kneeAngle : ℤ
  hipAngle : ℤ
  heelAngle : ℤ
  minKneeAngle : ℤ
  minHipAngle : ℤ
  maxKneeAngle : ℤ
  maxHipAngle : ℤ
  maxHeelAngle : ℤ
  showingLastRep : Bool
  hipAnkleDiff : ℚ
  minHipAnkleDiff : ℚ
deriving DecidableEq, Repr

/-- The `squatStage` React state: `null` initially, `'down'` or `'up'`. -/
inductive Stage where
  | down
  | up
deriving DecidableEq, Repr

/-- The `squatState` ref (CameraScreen.js, lines 927–941).
`angleDisplayTimer` holds the handle of the pending snapshot-expiry
`setTimeout` task, or `none`. -/
structure SquatRepState where
  descending : Bool
  minKneeAngle : ℤ
  minHipAngle : ℤ
  maxKneeForward : ℚ
  depthWarningGiven : Bool
  backWarningGiven : Bool
  toeWarningGiven : Bool
  lastWarningTime : ℤ
  maxKneeAngle : ℤ
  maxHipAngle : ℤ
  maxHeelAngle : ℤ
  minHipAnkleDiff : ℚ
  angleDisplayTimer : Option ℕ
deriving DecidableEq, Repr

/-- The whole mutable unit of the `FormAnalyzer` component that the squat
analysis reads and writes, plus the JS runtime's pool of outstanding
snapshot-expiry `setTimeout` tasks, each a `(handle, deadline)` pair in
integer milliseconds.  `nextTimerId` supplies fresh `setTimeout`
handles. -/
structure AnalyzerState where
  squatCounter : ℕ
  squatStage : Option Stage
  warningMessages : List String
  currentAngles : CurrentAngles
  displayAngles : DisplayAngles
  squatState : SquatRepState
  timers : List (ℕ × ℤ)
  nextTimerId : ℕ
deriving DecidableEq, Repr

def initialCurrentAngles : CurrentAngles where
  kneeAngle := 0
  hipAngle := 0
  heelAngle := 0
  minKneeAngle := 360
  minHipAngle := 360
  hipAnkleDiff := 0
  maxKneeAngle := 0
  maxHipAngle := 0
  maxHeelAngle := 0
  minHipAnkleDiff := 999
  maxKneeForward := -1

def initialDisplayAngles : DisplayAngles where
  kneeAngle := 0
  hipAngle := 0
  heelAngle := 0
  minKneeAngle := 360
  minHipAngle := 360
  maxKneeAngle := 0
  maxHipAngle := 0
  maxHeelAngle := 0
  showingLastRep := false
  hipAnkleDiff := 0
  minHipAnkleDiff := 999

def initialSquatRepState : SquatRepState where
  descending := false
  minKneeAngle := 360
  minHipAngle := 360
  maxKneeForward := -1
  depthWarningGiven := false
  backWarningGiven := false
  toeWarningGiven := false
  lastWarningTime := 0
  maxKneeAngle := 0
  maxHipAngle := 0
  maxHeelAngle := 0
  minHipAnkleDiff := 999
  angleDisplayTimer := none

/-- Component state at mount (CameraScreen.js, lines 888–941). -/
def initState : AnalyzerState where
  squatCounter := 0
  squatStage := none
  warningMessages := []
  currentAngles := initialCurrentAngles
  displayAngles := initialDisplayAngles
  squatState := initialSquatRepState
  timers := []
  nextTimerId := 0

/-- `resetSquatRep` (CameraScreen.js, lines 1018–1033): spreads the old
state and overwrites the listed fields; `lastWarningTime` and
`angleDisplayTimer` are deliberately untouched. -/
def resetSquatRep (s : SquatRepState) : SquatRepState :=
  { s with
    descending := false
    minKneeAngle := 360
    minHipAngle := 360
    maxKneeAngle := 0
    maxHipAngle := 0
    maxHeelAngle := 0
    maxKneeForward := -1
    depthWarningGiven := false
    backWarningGiven := false
    toeWarningGiven := false
    minHipAnkleDiff := 999 }

def tooDeepMsg : String := "Too deep! Protect your knees"

def notDeepMsg : String := "Not deep enough! Go deeper"

/-- The depth-rule block of `analyzeSquat` (CameraScreen.js, lines
1183–1194): returns the warnings pushed onto `newWarnings` and the
resulting `depthWarningGiven` flag.  (The knee-past-toe and back rules at
lines 1196–1219 are commented out in the source and are not modelled.) -/
def depthCheck (s : SquatRepState) : List String × Bool :=
  if ¬ s.depthWarningGiven then
    if s.maxKneeAngle > 140 then ([tooDeepMsg], true)
    else if s.maxKneeAngle < 100 then ([notDeepMsg], true)
    else ([], s.depthWarningGiven)
  else ([], s.depthWarningGiven)

/-- `setCurrentAngles` and the conditional live `setDisplayAngles`
(CameraScreen.js, lines 1093–1121). -/
def setLiveAngles (lm : AngleSample) (st : AnalyzerState) : AnalyzerState :=
  let st :=
    { st with
      currentAngles :=
      { kneeAngle := lm.kneeAngle
        hipAngle := lm.hipAngle
        heelAngle := lm.heelAngle
        minKneeAngle := st.squatState.minKneeAngle
        minHipAngle := st.squatState.minHipAngle
        hipAnkleDiff := 0
        maxKneeAngle := st.squatState.maxKneeAngle
        maxHipAngle := st.squatState.maxHipAngle
        maxHeelAngle := st.squatState.maxHeelAngle
        minHipAnkleDiff := st.squatState.minHipAnkleDiff
        maxKneeForward := st.squatState.maxKneeForward } }
  if st.displayAngles.showingLastRep then st
  else
    { st with
      displayAngles :=
      { kneeAngle := lm.kneeAngle
        hipAngle := lm.hipAngle
        heelAngle := lm.heelAngle
        minKneeAngle := st.squatState.minKneeAngle
        minHipAngle := st.squatState.minHipAngle
        showingLastRep := false
        hipAnkleDiff := 0
        maxKneeAngle := st.squatState.maxKneeAngle
        maxHipAngle := st.squatState.maxHipAngle
        maxHeelAngle := st.squatState.maxHeelAngle
        minHipAnkleDiff := st.squatState.minHipAnkleDiff } }

/-- The descent-start block (CameraScreen.js, lines 1128–1136). -/
def startDescent (lm : AngleSample) (st : AnalyzerState) : AnalyzerState :=
  if lm.kneeAngle > 85 ∧ ¬ st.squatState.descending then
    { st with
      squatState :=
      { st.squatState with
        descending := true
        maxKneeAngle := lm.kneeAngle
        maxHipAngle := lm.hipAngle
        maxHeelAngle := lm.heelAngle
        minKneeAngle := lm.kneeAngle }
      squatStage := some .down }
  else st

/-- The while-descending extrema update (CameraScreen.js, lines
1139–1146). -/
def trackDescent (lm : AngleSample) (st : AnalyzerState) : AnalyzerState :=
  if st.squatState.descending then
    { st with
      squatState :=
      { st.squatState with
        maxKneeAngle := max st.squatState.maxKneeAngle lm.kneeAngle
        maxHipAngle := max st.squatState.maxHipAngle lm.hipAngle
        maxHeelAngle := max st.squatState.maxHeelAngle lm.heelAngle
        maxKneeForward := max st.squatState.maxKneeForward lm.kneeX
        minKneeAngle := min st.squatState.minKneeAngle lm.kneeAngle } }
  else st

/-- The repetition-completion block (CameraScreen.js, lines 1149–1228):
increment the counter, freeze the snapshot, restart the snapshot-expiry
`setTimeout` (cancelling any pending one), run the depth rule, replace
the warning list when warnings were pushed, then `resetSquatRep` and set
the stage to `'up'`. -/
def completeRep (t : ℤ) (lm : AngleSample) (st : AnalyzerState) :
    AnalyzerState :=
  if lm.kneeAngle < 30 ∧ st.squatState.descending then
    let st1 := { st with squatCounter := st.squatCounter + 1 }
    let finalAngles : DisplayAngles :=
      { kneeAngle := lm.kneeAngle
        hipAngle := lm.hipAngle
        heelAngle := lm.heelAngle
        minKneeAngle := st1.squatState.minKneeAngle
        minHipAngle := st1.squatState.minHipAngle
        showingLastRep := true
        hipAnkleDiff := 0
        maxKneeAngle := st1.squatState.maxKneeAngle
        maxHipAngle := st1.squatState.maxHipAngle
        maxHeelAngle := st1.squatState.maxHeelAngle
        minHipAnkleDiff := st1.squatState.minHipAnkleDiff }
    let st2 := { st1 with displayAngles := finalAngles }
    let st3 :=
      match st2.squatState.angleDisplayTimer with
      | some tid =>
          { st2 with timers := st2.timers.filter (fun p => p.1 ≠ tid) }
      | none => st2
    let st4 :=
      { st3 with
        timers := st3.timers ++ [(st3.nextTimerId, t + 3000)]
        squatState :=
        { st3.squatState with angleDisplayTimer := some st3.nextTimerId }
        nextTimerId := st3.nextTimerId + 1 }
    let dc := depthCheck st4.squatState
    let st5 :=
      { st4 with
        squatState := { st4.squatState with depthWarningGiven := dc.2 } }
    let st6 :=
      if dc.1.length > 0 then
        { st5 with
          warningMessages := dc.1
          squatState := { st5.squatState with lastWarningTime := t } }
      else st5
    { st6 with
      squatState := resetSquatRep st6.squatState
      squatStage := some .up }
  else st

/-- The trailing warning-expiry check (CameraScreen.js, lines
1230–1233). -/
def expireWarnings (t : ℤ) (st : AnalyzerState) : AnalyzerState :=
  if t - st.squatState.lastWarningTime > 2000 then
    { st with warningMessages := [] }
  else st

/-- `analyzeSquat` (CameraScreen.js, lines 1035–1237) for one frame at
time `t` (`Date.now()`).  `input = none` models a frame whose landmark
presence guard fails (line 1045: some required landmark is falsy), which
returns before touching any state; `some lm` carries the three
`calculateAngle` results and `rKnee.x`. -/
def analyzeSquat (t : ℤ) (input : Option AngleSample)
    (st : AnalyzerState) : AnalyzerState :=
  match input with
  | none => st
  | some lm =>
      expireWarnings t (completeRep t lm (trackDescent lm
        (startDescent lm (setLiveAngles lm st))))

/-- The `setTimeout` callback scheduled at CameraScreen.js lines
1175–1181, as executed by the JS runtime: a task only fires while it is
still scheduled (a `clearTimeout`-cancelled task never runs); firing
removes it from the pool, clears `showingLastRep` and nulls the stored
handle. -/
def fireAngleDisplayTimer (id : ℕ) (st : AnalyzerState) : AnalyzerState :=
  if st.timers.any (fun p => p.1 = id) then
    { st with
      timers := st.timers.filter (fun p => p.1 ≠ id)
      displayAngles := { st.displayAngles with showingLastRep := false }
      squatState := { st.squatState with angleDisplayTimer := none } }
  else st

/-- `resetCounter` (CameraScreen.js, lines 1263–1302). -/
def resetCounter (st : AnalyzerState) : AnalyzerState :=
  let st1 :=
    { st with
      squatCounter := 0
      warningMessages := []
      squatState := resetSquatRep st.squatState
      squatStage := none }
  let st2 :=
    match st1.squatState.angleDisplayTimer with
    | some tid =>
        { st1 with
          timers := st1.timers.filter (fun p => p.1 ≠ tid)
          squatState := { st1.squatState with angleDisplayTimer := none } }
    | none => st1
  { st2 with
    displayAngles := initialDisplayAngles
    currentAngles := initialCurrentAngles }

/-- The completion condition of a frame, judged on the state at frame
entry: the descend-start block cannot set `descending` when
`kneeAngle < 30` (that would need `kneeAngle > 85`), so the check at line
1149 sees `descending` exactly as it was at entry. -/
def completesB (st : AnalyzerState) (input : Option AngleSample) : Bool :=
  match input with
  | none => false
  | some lm => decide (lm.kneeAngle < 30) && st.squatState.descending

/-- One event of the single-threaded JS event loop relevant to the core:
a landmark frame, the firing of a scheduled snapshot-expiry task, or the
external reset command. -/
inductive Event where
  | frame (t : ℤ) (input : Option AngleSample)
  | timerFire (id : ℕ)
  | reset
deriving DecidableEq, Repr

def stepEvent (st : AnalyzerState) : Event → AnalyzerState
  | .frame t input => analyzeSquat t input st
  | .timerFire id => fireAngleDisplayTimer id st
  | .reset => resetCounter st

def run (st : AnalyzerState) (evs : List Event) : AnalyzerState :=
  evs.foldl stepEvent st

/-- Processing a list of timed landmark frames in arrival order. -/
def runFrames (st : AnalyzerState)
    (frames : List (ℤ × Option AngleSample)) : AnalyzerState :=
  frames.foldl (fun s f => analyzeSquat f.1 f.2 s) st

/-- Number of frames of the list that complete a repetition when the list
is processed from `st`. -/
def countCompletions (st : AnalyzerState) :
    List (ℤ × Option AngleSample) → ℕ
  | [] => 0
  | f :: rest =>
      (if completesB st f.2 then 1 else 0) +
        countCompletions (analyzeSquat f.1 f.2 st) rest

/-- Well-formedness of the timer pool: every outstanding snapshot-expiry
task is the one whose handle is stored in `angleDisplayTimer`, there is
at most one, and all handles are below the fresh-handle counter. -/
def timersWF (st : AnalyzerState) : Prop :=
  (∀ p ∈ st.timers, st.squatState.angleDisplayTimer = some p.1) ∧
    st.timers.length ≤ 1 ∧
    (∀ p ∈ st.timers, p.1 < st.nextTimerId)

/-- An event that is neither a reset nor a timer firing nor a frame able
to complete a repetition (its knee angle, if any, is at least 30):
processing it can never finish a repetition, whatever the state. -/
def quietEvent : Event → Prop
  | .frame _ none => True
  | .frame _ (some lm) => 30 ≤ lm.kneeAngle
  | .timerFire _ => False
  | .reset => False

/-- The knee angles of concrete scenario 1 of the spec. -/
def scenarioKneeAngles : List ℤ := [170, 120, 90, 70, 50, 20]

/-- Concrete scenario 1 of the spec: frames yielding the knee angles
`[170, 120, 90, 70, 50, 20]` in order, with hip and heel angles held
constant at 90 (all at time 0, knee x-coordinate 0). -/
def scenarioFrames : List (ℤ × Option AngleSample) :=
  scenarioKneeAngles.map (fun k => (0, some ⟨k, 90, 90, 0⟩))

/-- A shallow squat repetition (maximum knee angle 90): descend at 90°,
complete at 20°. -/
def shallowRepFrames : List (ℤ × Option AngleSample) :=
  [(0, some ⟨90, 90, 90, 0⟩), (0, some ⟨20, 90, 90, 0⟩)]

/-- A deep squat repetition (maximum knee angle 150): descend at 150°,
complete at 20°. -/
def deepRepFrames : List (ℤ × Option AngleSample) :=
  [(0, some ⟨150, 90, 90, 0⟩), (0, some ⟨20, 90, 90, 0⟩)]

/-- The initial state with the descent flag raised, as after a descent
has started; used to exercise the completion transition directly. -/
def descendingInit : AnalyzerState :=
  { initState with
    squatState := { initialSquatRepState with descending := true } }

end Squat

namespace SquatJS

/-!
A second, `NaN`-aware copy of the squat machine.  `calculateAngle`
returns `NaN` for present-but-coincident landmarks (the `none` case of
`CalcAngle.calculateAngle`), and such a frame passes the landmark
presence guard at CameraScreen.js line 1045, so `NaN` angle samples do
reach `analyzeSquat`, where `Math.min`/`Math.max` propagate them into
the extrema.  Here every angle-valued JS number is `Option ℤ` with
`none` for `NaN`; `descending`, the flags, timestamps, timers and the
coordinate-valued fields are as in `Squat`.  Definitions mirror the same
source lines as their `Squat` counterparts.
-/

/-- A JS angle value: `none` is `NaN`, `some v` the integer that
`calculateAngle` rounded to. -/
abbrev JSInt := Option ℤ

/-- JS `Math.min`: `NaN` when either argument is `NaN`. -/
def jsMin : JSInt → JSInt → JSInt
  | some x, some y => some (min x y)
  | _, _ => none

/-- JS `Math.max`: `NaN` when either argument is `NaN`. -/
def jsMax : JSInt → JSInt → JSInt
  | some x, some y => some (max x y)
  | _, _ => none

/-- JS `x < c`: false when `x` is `NaN`. -/
def jsLtB (x : JSInt) (c : ℤ) : Bool :=
  match x with
  | none => false
  | some v => decide (v < c)

/-- JS `x > c`: false when `x` is `NaN`. -/
def jsGtB (x : JSInt) (c : ℤ) : Bool :=
  match x with
  | none => false
  | some v => decide (v > c)

/-- The per-frame angle samples (CameraScreen.js, lines 1050–1067) with
their possible `NaN` outcomes, plus `rKnee.x`. -/
structure AngleSample where
  kneeAngle : JSInt
  hipAngle : JSInt
  heelAngle : JSInt
  kneeX : ℚ
deriving DecidableEq, Repr

/-- The `currentAngles` React state (lines 896–909). -/
structure CurrentAngles where
  kneeAngle : JSInt
  hipAngle : JSInt
  heelAngle : JSInt
  minKneeAngle : JSInt
  minHipAngle : JSInt
  hipAnkleDiff : ℚ
  maxKneeAngle : JSInt
  maxHipAngle : JSInt
  maxHeelAngle : JSInt
  minHipAnkleDiff : ℚ
  maxKneeForward : ℚ
deriving DecidableEq, Repr

/-- The `displayAngles` React state (lines 912–924). -/
structure DisplayAngles where
  kneeAngle : JSInt
  hipAngle : JSInt
  heelAngle : JSInt
  minKneeAngle : JSInt
  minHipAngle : JSInt
  maxKneeAngle : JSInt
  maxHipAngle : JSInt
  maxHeelAngle : JSInt
  showingLastRep : Bool
  hipAnkleDiff : ℚ
  minHipAnkleDiff : ℚ
deriving DecidableEq, Repr

/-- The `squatState` ref (lines 927–941). -/
structure SquatRepState where
  descending : Bool
  minKneeAngle : JSInt
  minHipAngle : JSInt
  maxKneeForward : ℚ
  depthWarningGiven : Bool
  backWarningGiven : Bool
  toeWarningGiven : Bool
  lastWarningTime : ℤ
  maxKneeAngle : JSInt
  maxHipAngle : JSInt
  maxHeelAngle : JSInt
  minHipAnkleDiff : ℚ
  angleDisplayTimer : Option ℕ
deriving DecidableEq, Repr

/-- The component state plus the `setTimeout` pool, as in
`Squat.AnalyzerState`. -/
structure AnalyzerState where
  squatCounter : ℕ
  squatStage : Option Squat.Stage
  warningMessages : List String
  currentAngles : CurrentAngles
  displayAngles : DisplayAngles
  squatState : SquatRepState
  timers : List (ℕ × ℤ)
  nextTimerId : ℕ
deriving DecidableEq, Repr

def initialCurrentAngles : CurrentAngles where
  kneeAngle := some 0
  hipAngle := some 0
  heelAngle := some 0
  minKneeAngle := some 360
  minHipAngle := some 360
  hipAnkleDiff := 0
  maxKneeAngle := some 0
  maxHipAngle := some 0
  maxHeelAngle := some 0
  minHipAnkleDiff := 999
  maxKneeForward := -1

def initialDisplayAngles : DisplayAngles where
  kneeAngle := some 0
  hipAngle := some 0
  heelAngle := some 0
  minKneeAngle := some 360
  minHipAngle := some 360
  maxKneeAngle := some 0
  maxHipAngle := some 0
  maxHeelAngle := some 0
  showingLastRep := false
  hipAnkleDiff := 0
  minHipAnkleDiff := 999

def initialSquatRepState : SquatRepState where
  descending := false
  minKneeAngle := some 360
  minHipAngle := some 360
  maxKneeForward := -1
  depthWarningGiven := false
  backWarningGiven := false
  toeWarningGiven := false
  lastWarningTime := 0
  maxKneeAngle := some 0
  maxHipAngle := some 0
  maxHeelAngle := some 0
  minHipAnkleDiff := 999
  angleDisplayTimer := none

/-- Component state at mount (lines 888–941). -/
def initState : AnalyzerState where
  squatCounter := 0
  squatStage := none
  warningMessages := []
  currentAngles := initialCurrentAngles
  displayAngles := initialDisplayAngles
  squatState := initialSquatRepState
  timers := []
  nextTimerId := 0

/-- `resetSquatRep` (lines 1018–1033). -/
def resetSquatRep (s : SquatRepState) : SquatRepState :=
  { s with
    descending := false
    minKneeAngle := some 360
    minHipAngle := some 360
    maxKneeAngle := some 0
    maxHipAngle := some 0
    maxHeelAngle := some 0
    maxKneeForward := -1
    depthWarningGiven := false
    backWarningGiven := false
    toeWarningGiven := false
    minHipAnkleDiff := 999 }

/-- The depth-rule block (lines 1183–1194); in JS a comparison against
`NaN` is false, so a poisoned `maxKneeAngle` fires neither branch. -/
def depthCheck (s : SquatRepState) : List String × Bool :=
  if ¬ s.depthWarningGiven then
    if jsGtB s.maxKneeAngle 140 then ([Squat.tooDeepMsg], true)
    else if jsLtB s.maxKneeAngle 100 then ([Squat.notDeepMsg], true)
    else ([], s.depthWarningGiven)
  else ([], s.depthWarningGiven)

/-- `setCurrentAngles` and the conditional live `setDisplayAngles`
(lines 1093–1121). -/
def setLiveAngles (lm : AngleSample) (st : AnalyzerState) : AnalyzerState :=
  let st :=
    { st with
      currentAngles :=
      { kneeAngle := lm.kneeAngle
        hipAngle := lm.hipAngle
        heelAngle := lm.heelAngle
        minKneeAngle := st.squatState.minKneeAngle
        minHipAngle := st.squatState.minHipAngle
        hipAnkleDiff := 0
        maxKneeAngle := st.squatState.maxKneeAngle
        maxHipAngle := st.squatState.maxHipAngle
        maxHeelAngle := st.squatState.maxHeelAngle
        minHipAnkleDiff := st.squatState.minHipAnkleDiff
        maxKneeForward := st.squatState.maxKneeForward } }
  if st.displayAngles.showingLastRep then st
  else
    { st with
      displayAngles :=
      { kneeAngle := lm.kneeAngle
        hipAngle := lm.hipAngle
        heelAngle := lm.heelAngle
        minKneeAngle := st.squatState.minKneeAngle
        minHipAngle := st.squatState.minHipAngle
        showingLastRep := false
        hipAnkleDiff := 0
        maxKneeAngle := st.squatState.maxKneeAngle
        maxHipAngle := st.squatState.maxHipAngle
        maxHeelAngle := st.squatState.maxHeelAngle
        minHipAnkleDiff := st.squatState.minHipAnkleDiff } }

/-- The descent-start block (lines 1128–1136); `NaN > 85` is false, so a
degenerate frame never starts a descent. -/
def startDescent (lm : AngleSample) (st : AnalyzerState) : AnalyzerState :=
  if jsGtB lm.kneeAngle 85 && ! st.squatState.descending then
    { st with
      squatState :=
      { st.squatState with
        descending := true
        maxKneeAngle := lm.kneeAngle
        maxHipAngle := lm.hipAngle
        maxHeelAngle := lm.heelAngle
        minKneeAngle := lm.kneeAngle }
      squatStage := some .down }
  else st

/-- The while-descending extrema update (lines 1139–1146);
`Math.min`/`Math.max` propagate a `NaN` sample into the extrema. -/
def trackDescent (lm : AngleSample) (st : AnalyzerState) : AnalyzerState :=
  if st.squatState.descending then
    { st with
      squatState :=
      { st.squatState with
        maxKneeAngle := jsMax st.squatState.maxKneeAngle lm.kneeAngle
        maxHipAngle := jsMax st.squatState.maxHipAngle lm.hipAngle
        maxHeelAngle := jsMax st.squatState.maxHeelAngle lm.heelAngle
        maxKneeForward := max st.squatState.maxKneeForward lm.kneeX
        minKneeAngle := jsMin st.squatState.minKneeAngle lm.kneeAngle } }
  else st

/-- The repetition-completion block (lines 1149–1228); `NaN < 30` is
false, so only a frame with a real knee angle below 30 completes. -/
def completeRep (t : ℤ) (lm : AngleSample) (st : AnalyzerState) :
    AnalyzerState :=
  if jsLtB lm.kneeAngle 30 && st.squatState.descending then
    let st1 := { st with squatCounter := st.squatCounter + 1 }
    let finalAngles : DisplayAngles :=
      { kneeAngle := lm.kneeAngle
        hipAngle := lm.hipAngle
        heelAngle := lm.heelAngle
        minKneeAngle := st1.squatState.minKneeAngle
        minHipAngle := st1.squatState.minHipAngle
        showingLastRep := true
        hipAnkleDiff := 0
        maxKneeAngle := st1.squatState.maxKneeAngle
        maxHipAngle := st1.squatState.maxHipAngle
        maxHeelAngle := st1.squatState.maxHeelAngle
        minHipAnkleDiff := st1.squatState.minHipAnkleDiff }
    let st2 := { st1 with displayAngles := finalAngles }
    let st3 :=
      match st2.squatState.angleDisplayTimer with
      | some tid =>
          { st2 with timers := st2.timers.filter (fun p => p.1 ≠ tid) }
      | none => st2
    let st4 :=
      { st3 with
        timers := st3.timers ++ [(st3.nextTimerId, t + 3000)]
        squatState :=
        { st3.squatState with angleDisplayTimer := some st3.nextTimerId }
        nextTimerId := st3.nextTimerId + 1 }
    let dc := depthCheck st4.squatState
    let st5 :=
      { st4 with
        squatState := { st4.squatState with depthWarningGiven := dc.2 } }
    let st6 :=
      if dc.1.length > 0 then
        { st5 with
          warningMessages := dc.1
          squatState := { st5.squatState with lastWarningTime := t } }
      else st5
    { st6 with
      squatState := resetSquatRep st6.squatState
      squatStage := some .up }
  else st

/-- The trailing warning-expiry check (lines 1230–1233). -/
def expireWarnings (t : ℤ) (st : AnalyzerState) : AnalyzerState :=
  if t - st.squatState.lastWarningTime > 2000 then
    { st with warningMessages := [] }
  else st

/-- `analyzeSquat` (lines 1035–1237) for one frame at time `t`, with the
angle samples allowed to be `NaN`; `input = none` is a frame failing the
line-1045 presence guard, while `some lm` with a `none` field is a frame
whose landmarks are present but degenerate. -/
def analyzeSquat (t : ℤ) (input : Option AngleSample)
    (st : AnalyzerState) : AnalyzerState :=
  match input with
  | none => st
  | some lm =>
      expireWarnings t (completeRep t lm (trackDescent lm
        (startDescent lm (setLiveAngles lm st))))

/-- Processing a list of timed landmark frames in arrival order. -/
def runFrames (st : AnalyzerState)
    (frames : List (ℤ × Option AngleSample)) : AnalyzerState :=
  frames.foldl (fun s f => analyzeSquat f.1 f.2 s) st

/-- A descent of three frames whose middle frame has every required
landmark present but the hip coincident with the knee: `calculateAngle`
then yields `NaN` for the knee angle (the `C2` degenerate case), the
frame passes the line-1045 guard, and `Math.min` poisons the running
minimum, which the completion at the third frame freezes. -/
def nanRepFrames : List (ℤ × Option AngleSample) :=
  [(0, some ⟨some 90, some 90, some 90, 0⟩),
   (0, some ⟨none, some 90, some 90, 0⟩),
   (0, some ⟨some 20, some 90, some 90, 0⟩)]

/-- The initial state with the descent flag raised, as in
`Squat.descendingInit`. -/
def descendingInit : AnalyzerState :=
  { initState with
    squatState := { initialSquatRepState with descending := true } }

end SquatJS

namespace CalcAngle

lemma sq_add_sq_pos_of_ne {p q : ℝ × ℝ} (h : p ≠ q) :
    0 < (p.1 - q.1) ^ 2 + (p.2 - q.2) ^ 2 := by
  rcases lt_or_eq_of_le (by positivity : (0:ℝ) ≤ (p.1 - q.1) ^ 2 + (p.2 - q.2) ^ 2) with hlt | heq
  · exact hlt
  · exfalso
    have h1 : (p.1 - q.1) ^ 2 = 0 ∧ (p.2 - q.2) ^ 2 = 0 := by
      constructor <;> nlinarith [sq_nonneg (p.1 - q.1), sq_nonneg (p.2 - q.2)]
    have hp1 : p.1 = q.1 := by nlinarith [h1.1]
    have hp2 : p.2 = q.2 := by nlinarith [h1.2]
    exact h (Prod.ext hp1 hp2)

lemma toE2_sub_apply_zero (p q : ℝ × ℝ) : (toE2 p - toE2 q) 0 = p.1 - q.1 := rfl

lemma toE2_sub_apply_one (p q : ℝ × ℝ) : (toE2 p - toE2 q) 1 = p.2 - q.2 := rfl

lemma norm_toE2_sub (p q : ℝ × ℝ) :
    ‖toE2 p - toE2 q‖ = Real.sqrt ((p.1 - q.1) ^ 2 + (p.2 - q.2) ^ 2) := by
  rw [EuclideanSpace.norm_eq]
  rw [Fin.sum_univ_two]
  rw [toE2_sub_apply_zero, toE2_sub_apply_one]
  simp [Real.norm_eq_abs, sq_abs]

lemma inner_toE2_sub (a b c : ℝ × ℝ) :
    (inner (toE2 a - toE2 b) (toE2 c - toE2 b) : ℝ)
      = (a.1 - b.1) * (c.1 - b.1) + (a.2 - b.2) * (c.2 - b.2) := by
  rw [PiLp.inner_apply]
  rw [Fin.sum_univ_two]
  rw [toE2_sub_apply_zero, toE2_sub_apply_one, toE2_sub_apply_zero, toE2_sub_apply_one]
  simp [RCLike.inner_apply, mul_comm]

/-- A coincident left point makes `vectorBA` zero-length: the `0/0`
division yields `NaN`, which survives clamp, `acos`, subtraction and
rounding. -/
lemma calculateAngle_of_eq_left (a b c : ℝ × ℝ) (h : a = b) :
    calculateAngle a b c = none := by
  subst h
  simp [calculateAngle]

/-- A coincident right point makes `vectorBC` zero-length, with the same
`NaN` outcome. -/
lemma calculateAngle_of_eq_right (a b c : ℝ × ℝ) (h : c = b) :
    calculateAngle a b c = none := by
  subst h
  simp [calculateAngle]

/-- With `b` distinct from `a` and `c`, the magnitudes are positive, the
cosine lies in `[-1, 1]` (Cauchy–Schwarz) so the clamp is the identity,
and the result is the rounded exterior of Mathlib's unoriented angle at
`b`. -/
lemma calculateAngle_eq_exterior (a b c : ℝ × ℝ) (h1 : b ≠ a) (h2 : b ≠ c) :
    calculateAngle a b c =
      some (round (180 -
        EuclideanGeometry.angle (toE2 a) (toE2 b) (toE2 c) * 180 / Real.pi)) := by
  have hA : 0 < (a.1 - b.1) ^ 2 + (a.2 - b.2) ^ 2 :=
    sq_add_sq_pos_of_ne (Ne.symm h1)
  have hB : 0 < (c.1 - b.1) ^ 2 + (c.2 - b.2) ^ 2 :=
    sq_add_sq_pos_of_ne (Ne.symm h2)
  have hsA : 0 < Real.sqrt ((a.1 - b.1) ^ 2 + (a.2 - b.2) ^ 2) :=
    Real.sqrt_pos.mpr hA
  have hsB : 0 < Real.sqrt ((c.1 - b.1) ^ 2 + (c.2 - b.2) ^ 2) :=
    Real.sqrt_pos.mpr hB
  have hprodpos : 0 < Real.sqrt ((a.1 - b.1) ^ 2 + (a.2 - b.2) ^ 2) *
      Real.sqrt ((c.1 - b.1) ^ 2 + (c.2 - b.2) ^ 2) := mul_pos hsA hsB
  have hCS : ((a.1 - b.1) * (c.1 - b.1) + (a.2 - b.2) * (c.2 - b.2)) ^ 2 ≤
      ((a.1 - b.1) ^ 2 + (a.2 - b.2) ^ 2) *
        ((c.1 - b.1) ^ 2 + (c.2 - b.2) ^ 2) := by
    nlinarith [sq_nonneg ((a.1 - b.1) * (c.2 - b.2) - (a.2 - b.2) * (c.1 - b.1))]
  have habs : |(a.1 - b.1) * (c.1 - b.1) + (a.2 - b.2) * (c.2 - b.2)| ≤
      Real.sqrt ((a.1 - b.1) ^ 2 + (a.2 - b.2) ^ 2) *
        Real.sqrt ((c.1 - b.1) ^ 2 + (c.2 - b.2) ^ 2) := by
    rw [← Real.sqrt_sq_eq_abs, ← Real.sqrt_mul hA.le]
    exact Real.sqrt_le_sqrt hCS
  have hdiv : |((a.1 - b.1) * (c.1 - b.1) + (a.2 - b.2) * (c.2 - b.2)) /
      (Real.sqrt ((a.1 - b.1) ^ 2 + (a.2 - b.2) ^ 2) *
        Real.sqrt ((c.1 - b.1) ^ 2 + (c.2 - b.2) ^ 2))| ≤ 1 := by
    rw [abs_div, abs_of_pos hprodpos]
    exact (div_le_one hprodpos).mpr habs
  have hclamp : max (-1) (min 1
      (((a.1 - b.1) * (c.1 - b.1) + (a.2 - b.2) * (c.2 - b.2)) /
        (Real.sqrt ((a.1 - b.1) ^ 2 + (a.2 - b.2) ^ 2) *
          Real.sqrt ((c.1 - b.1) ^ 2 + (c.2 - b.2) ^ 2)))) =
      ((a.1 - b.1) * (c.1 - b.1) + (a.2 - b.2) * (c.2 - b.2)) /
        (Real.sqrt ((a.1 - b.1) ^ 2 + (a.2 - b.2) ^ 2) *
          Real.sqrt ((c.1 - b.1) ^ 2 + (c.2 - b.2) ^ 2)) := by
    rcases abs_le.mp hdiv with ⟨hlo, hhi⟩
    rw [min_eq_right hhi, max_eq_right (by simpa [min_eq_right hhi] using hlo)]
  have hangle : EuclideanGeometry.angle (toE2 a) (toE2 b) (toE2 c) =
      Real.arccos
        (((a.1 - b.1) * (c.1 - b.1) + (a.2 - b.2) * (c.2 - b.2)) /
          (Real.sqrt ((a.1 - b.1) ^ 2 + (a.2 - b.2) ^ 2) *
            Real.sqrt ((c.1 - b.1) ^ 2 + (c.2 - b.2) ^ 2))) := by
    rw [EuclideanGeometry.angle, InnerProductGeometry.angle]
    rw [vsub_eq_sub, vsub_eq_sub, inner_toE2_sub, norm_toE2_sub, norm_toE2_sub]
  rw [hangle]
  simp only [calculateAngle]
  rw [if_neg (ne_of_gt hprodpos), hclamp]

/-- Concrete scenario 4 of the spec: `a = (0,0)`, `b = (1,0)`,
`c = (1,1)` give a right angle, reported as `90`. -/
lemma calculateAngle_right_angle :
    calculateAngle (0, 0) (1, 0) (1, 1) = some 90 := by
  have harc : Real.pi / 2 * 180 / Real.pi = 90 := by
    field_simp
    ring
  simp only [calculateAngle]
  norm_num [Real.sqrt_one, Real.arccos_zero, harc, round_ofNat]

end CalcAngle

namespace Squat

@[simp] lemma setLiveAngles_squatState (lm : AngleSample) (st : AnalyzerState) :
    (setLiveAngles lm st).squatState = st.squatState := by
  simp only [setLiveAngles]
  split <;> rfl

@[simp] lemma setLiveAngles_squatCounter (lm : AngleSample) (st : AnalyzerState) :
    (setLiveAngles lm st).squatCounter = st.squatCounter := by
  simp only [setLiveAngles]
  split <;> rfl

@[simp] lemma setLiveAngles_timers (lm : AngleSample) (st : AnalyzerState) :
    (setLiveAngles lm st).timers = st.timers := by
  simp only [setLiveAngles]
  split <;> rfl

@[simp] lemma setLiveAngles_nextTimerId (lm : AngleSample) (st : AnalyzerState) :
    (setLiveAngles lm st).nextTimerId = st.nextTimerId := by
  simp only [setLiveAngles]
  split <;> rfl

@[simp] lemma setLiveAngles_warningMessages (lm : AngleSample) (st : AnalyzerState) :
    (setLiveAngles lm st).warningMessages = st.warningMessages := by
  simp only [setLiveAngles]
  split <;> rfl

@[simp] lemma setLiveAngles_squatStage (lm : AngleSample) (st : AnalyzerState) :
    (setLiveAngles lm st).squatStage = st.squatStage := by
  simp only [setLiveAngles]
  split <;> rfl

lemma setLiveAngles_showing (lm : AngleSample) (st : AnalyzerState)
    (h : st.displayAngles.showingLastRep = true) :
    (setLiveAngles lm st).displayAngles = st.displayAngles := by
  simp only [setLiveAngles]
  split
  · rfl
  · simp_all

@[simp] lemma startDescent_squatCounter (lm : AngleSample) (st : AnalyzerState) :
    (startDescent lm st).squatCounter = st.squatCounter := by
  simp only [startDescent]
  split <;> rfl

@[simp] lemma startDescent_timers (lm : AngleSample) (st : AnalyzerState) :
    (startDescent lm st).timers = st.timers := by
  simp only [startDescent]
  split <;> rfl

@[simp] lemma startDescent_nextTimerId (lm : AngleSample) (st : AnalyzerState) :
    (startDescent lm st).nextTimerId = st.nextTimerId := by
  simp only [startDescent]
  split <;> rfl

@[simp] lemma startDescent_warningMessages (lm : AngleSample) (st : AnalyzerState) :
    (startDescent lm st).warningMessages = st.warningMessages := by
  simp only [startDescent]
  split <;> rfl

@[simp] lemma startDescent_displayAngles (lm : AngleSample) (st : AnalyzerState) :
    (startDescent lm st).displayAngles = st.displayAngles := by
  simp only [startDescent]
  split <;> rfl

@[simp] lemma startDescent_depthWarningGiven (lm : AngleSample) (st : AnalyzerState) :
    (startDescent lm st).squatState.depthWarningGiven =
      st.squatState.depthWarningGiven := by
  simp only [startDescent]
  split <;> rfl

@[simp] lemma startDescent_lastWarningTime (lm : AngleSample) (st : AnalyzerState) :
    (startDescent lm st).squatState.lastWarningTime =
      st.squatState.lastWarningTime := by
  simp only [startDescent]
  split <;> rfl

@[simp] lemma startDescent_angleDisplayTimer (lm : AngleSample) (st : AnalyzerState) :
    (startDescent lm st).squatState.angleDisplayTimer =
      st.squatState.angleDisplayTimer := by
  simp only [startDescent]
  split <;> rfl

lemma startDescent_descending (lm : AngleSample) (st : AnalyzerState) :
    (startDescent lm st).squatState.descending =
      (st.squatState.descending || decide (lm.kneeAngle > 85)) := by
  simp only [startDescent]
  split_ifs with h
  · simp [h.1]
  · rcases not_and_or.mp h with h' | h'
    · simp [h']
    · simp at h'
      simp [h']

lemma startDescent_of_descending (lm : AngleSample) (st : AnalyzerState)
    (h : st.squatState.descending = true) : startDescent lm st = st := by
  simp [startDescent, h]

lemma startDescent_of_low (lm : AngleSample) (st : AnalyzerState)
    (h : ¬ lm.kneeAngle > 85) : startDescent lm st = st := by
  simp [startDescent, h]

@[simp] lemma trackDescent_squatCounter (lm : AngleSample) (st : AnalyzerState) :
    (trackDescent lm st).squatCounter = st.squatCounter := by
  simp only [trackDescent]
  split <;> rfl

@[simp] lemma trackDescent_timers (lm : AngleSample) (st : AnalyzerState) :
    (trackDescent lm st).timers = st.timers := by
  simp only [trackDescent]
  split <;> rfl

@[simp] lemma trackDescent_nextTimerId (lm : AngleSample) (st : AnalyzerState) :
    (trackDescent lm st).nextTimerId = st.nextTimerId := by
  simp only [trackDescent]
  split <;> rfl

@[simp] lemma trackDescent_warningMessages (lm : AngleSample) (st : AnalyzerState) :
    (trackDescent lm st).warningMessages = st.warningMessages := by
  simp only [trackDescent]
  split <;> rfl

@[simp] lemma trackDescent_displayAngles (lm : AngleSample) (st : AnalyzerState) :
    (trackDescent lm st).displayAngles = st.displayAngles := by
  simp only [trackDescent]
  split <;> rfl

@[simp] lemma trackDescent_squatStage (lm : AngleSample) (st : AnalyzerState) :
    (trackDescent lm st).squatStage = st.squatStage := by
  simp only [trackDescent]
  split <;> rfl

@[simp] lemma trackDescent_descending (lm : AngleSample) (st : AnalyzerState) :
    (trackDescent lm st).squatState.descending = st.squatState.descending := by
  simp only [trackDescent]
  split <;> rfl

@[simp] lemma trackDescent_depthWarningGiven (lm : AngleSample) (st : AnalyzerState) :
    (trackDescent lm st).squatState.depthWarningGiven =
      st.squatState.depthWarningGiven := by
  simp only [trackDescent]
  split <;> rfl

@[simp] lemma trackDescent_lastWarningTime (lm : AngleSample) (st : AnalyzerState) :
    (trackDescent lm st).squatState.lastWarningTime =
      st.squatState.lastWarningTime := by
  simp only [trackDescent]
  split <;> rfl

@[simp] lemma trackDescent_angleDisplayTimer (lm : AngleSample) (st : AnalyzerState) :
    (trackDescent lm st).squatState.angleDisplayTimer =
      st.squatState.angleDisplayTimer := by
  simp only [trackDescent]
  split <;> rfl

@[simp] lemma expireWarnings_squatCounter (t : ℤ) (st : AnalyzerState) :
    (expireWarnings t st).squatCounter = st.squatCounter := by
  simp only [expireWarnings]
  split <;> rfl

@[simp] lemma expireWarnings_squatState (t : ℤ) (st : AnalyzerState) :
    (expireWarnings t st).squatState = st.squatState := by
  simp only [expireWarnings]
  split <;> rfl

@[simp] lemma expireWarnings_timers (t : ℤ) (st : AnalyzerState) :
    (expireWarnings t st).timers = st.timers := by
  simp only [expireWarnings]
  split <;> rfl

@[simp] lemma expireWarnings_nextTimerId (t : ℤ) (st : AnalyzerState) :
    (expireWarnings t st).nextTimerId = st.nextTimerId := by
  simp only [expireWarnings]
  split <;> rfl

@[simp] lemma expireWarnings_displayAngles (t : ℤ) (st : AnalyzerState) :
    (expireWarnings t st).displayAngles = st.displayAngles := by
  simp only [expireWarnings]
  split <;> rfl

@[simp] lemma expireWarnings_squatStage (t : ℤ) (st : AnalyzerState) :
    (expireWarnings t st).squatStage = st.squatStage := by
  simp only [expireWarnings]
  split <;> rfl

lemma completeRep_not (t : ℤ) (lm : AngleSample) (st : AnalyzerState)
    (h : ¬ (lm.kneeAngle < 30 ∧ st.squatState.descending = true)) :
    completeRep t lm st = st := by
  rw [completeRep, if_neg]
  simpa using h

end Squat

namespace Squat

lemma analyzeSquat_none (t : ℤ) (st : AnalyzerState) :
    analyzeSquat t none st = st := rfl

lemma completeRep_squatCounter_of (t : ℤ) (lm : AngleSample)
    (st : AnalyzerState) (h : lm.kneeAngle < 30 ∧ st.squatState.descending = true) :
    (completeRep t lm st).squatCounter = st.squatCounter + 1 := by
  rw [completeRep, if_pos (by exact ⟨h.1, h.2⟩)]
  cases h' : st.squatState.angleDisplayTimer <;>
    simp only [h'] <;> split_ifs <;> rfl

lemma analyzeSquat_squatCounter (t : ℤ) (input : Option AngleSample)
    (st : AnalyzerState) :
    (analyzeSquat t input st).squatCounter =
      st.squatCounter + (if completesB st input then 1 else 0) := by
  cases input with
  | none => simp [analyzeSquat, completesB]
  | some lm =>
      rw [analyzeSquat]
      by_cases hc : lm.kneeAngle < 30 ∧ st.squatState.descending = true
      · have hd : (trackDescent lm (startDescent lm
            (setLiveAngles lm st))).squatState.descending = true := by
          rw [trackDescent_descending, startDescent_descending]
          simp [hc.2]
        rw [expireWarnings_squatCounter,
          completeRep_squatCounter_of t lm _ ⟨hc.1, hd⟩]
        simp [completesB, hc.1, hc.2]
      · have hnot : ¬ (lm.kneeAngle < 30 ∧ (trackDescent lm (startDescent lm
            (setLiveAngles lm st))).squatState.descending = true) := by
          rw [trackDescent_descending, startDescent_descending,
            setLiveAngles_squatState]
          intro hcontra
          rcases hcontra with ⟨hk, hd⟩
          rcases Bool.or_eq_true_iff.mp hd with hd' | hd'
          · exact hc ⟨hk, hd'⟩
          · have := of_decide_eq_true hd'
            omega
        rw [expireWarnings_squatCounter, completeRep_not _ _ _ hnot]
        have : completesB st (some lm) = false := by
          simp only [completesB, Bool.and_eq_false_iff]
          by_cases hk : lm.kneeAngle < 30
          · right
            by_contra hdt
            exact hc ⟨hk, by simpa using hdt⟩
          · left
            simpa using hk
        simp [this]

lemma runFrames_append (st : AnalyzerState)
    (l1 l2 : List (ℤ × Option AngleSample)) :
    runFrames st (l1 ++ l2) = runFrames (runFrames st l1) l2 := by
  simp [runFrames, List.foldl_append]

lemma runFrames_squatCounter (frames : List (ℤ × Option AngleSample))
    (st : AnalyzerState) :
    (runFrames st frames).squatCounter =
      st.squatCounter + countCompletions st frames := by
  induction frames generalizing st with
  | nil => simp [runFrames, countCompletions]
  | cons f rest ih =>
      have h1 : runFrames st (f :: rest) =
          runFrames (analyzeSquat f.1 f.2 st) rest := by
        simp [runFrames]
      rw [h1, ih, analyzeSquat_squatCounter, countCompletions]
      omega

end Squat

/-- C4: for every frame sequence processed from the initial state,
`repCount` (`squatCounter`) equals the number of frames satisfying the
completion condition (knee angle below 30 while descending), and — per
frame — no path other than that completion transition changes the
counter: every step adds exactly `1` when it completes and `0`
otherwise. -/
theorem C4_repCount_counts_completions :
    (∀ (st : Squat.AnalyzerState) (t : ℤ)
        (input : Option Squat.AngleSample),
      (Squat.analyzeSquat t input st).squatCounter =
        st.squatCounter + (if Squat.completesB st input then 1 else 0)) ∧
    (∀ frames : List (ℤ × Option Squat.AngleSample),
      (Squat.runFrames Squat.initState frames).squatCounter =
        Squat.countCompletions Squat.initState frames) := by
  constructor
  · exact fun st t input => Squat.analyzeSquat_squatCounter t input st
  · intro frames
    rw [Squat.runFrames_squatCounter]
    simp [Squat.initState]

/-- C6: a frame missing any required landmark fails the guard at
CameraScreen.js line 1045 and is a complete no-op — the state, hence
`repCount`, extrema and phase, is unchanged — and therefore inserting
such a frame anywhere in a sequence does not change the outcome. -/
theorem C6_missing_landmark_noop :
    (∀ (t : ℤ) (st : Squat.AnalyzerState),
      Squat.analyzeSquat t none st = st) ∧
    (∀ (st : Squat.AnalyzerState)
        (pre post : List (ℤ × Option Squat.AngleSample)) (t : ℤ),
      Squat.runFrames st (pre ++ (t, none) :: post) =
        Squat.runFrames st (pre ++ post)) := by
  constructor
  · exact fun t st => rfl
  · intro st pre post t
    rw [Squat.runFrames_append, Squat.runFrames_append]
    have h1 : Squat.runFrames (Squat.runFrames st pre) ((t, none) :: post) =
        Squat.runFrames (Squat.analyzeSquat t none (Squat.runFrames st pre))
          post := by
      simp [Squat.runFrames]
    rw [h1, Squat.analyzeSquat_none]

namespace Squat

@[simp] lemma resetSquatRep_angleDisplayTimer (s : SquatRepState) :
    (resetSquatRep s).angleDisplayTimer = s.angleDisplayTimer := rfl

@[simp] lemma resetSquatRep_lastWarningTime (s : SquatRepState) :
    (resetSquatRep s).lastWarningTime = s.lastWarningTime := rfl

lemma completeRep_displayAngles_of (t : ℤ) (lm : AngleSample)
    (st : AnalyzerState)
    (h : lm.kneeAngle < 30 ∧ st.squatState.descending = true) :
    (completeRep t lm st).displayAngles =
      { kneeAngle := lm.kneeAngle
        hipAngle := lm.hipAngle
        heelAngle := lm.heelAngle
        minKneeAngle := st.squatState.minKneeAngle
        minHipAngle := st.squatState.minHipAngle
        showingLastRep := true
        hipAnkleDiff := 0
        maxKneeAngle := st.squatState.maxKneeAngle
        maxHipAngle := st.squatState.maxHipAngle
        maxHeelAngle := st.squatState.maxHeelAngle
        minHipAnkleDiff := st.squatState.minHipAnkleDiff } := by
  rw [completeRep, if_pos (by exact ⟨h.1, h.2⟩)]
  cases h' : st.squatState.angleDisplayTimer <;>
    simp only [h'] <;> split_ifs <;> rfl

lemma trackDescent_minKneeAngle_of (lm : AngleSample) (st : AnalyzerState)
    (h : st.squatState.descending = true) :
    (trackDescent lm st).squatState.minKneeAngle =
      min st.squatState.minKneeAngle lm.kneeAngle := by
  simp [trackDescent, h]

lemma trackDescent_maxKneeAngle_of (lm : AngleSample) (st : AnalyzerState)
    (h : st.squatState.descending = true) :
    (trackDescent lm st).squatState.maxKneeAngle =
      max st.squatState.maxKneeAngle lm.kneeAngle := by
  simp [trackDescent, h]

end Squat

/-- C9: `resetCounter` is idempotent — applying it twice to any state
(counter, stage, extrema, warning flags, active warnings, display
snapshot, and the pending snapshot-expiry task pool included) gives
exactly the state of applying it once.  The first application clears the
stored timer handle, so the second finds nothing to cancel and rewrites
the same constants. -/
theorem C9_reset_idempotent (st : Squat.AnalyzerState) :
    Squat.resetCounter (Squat.resetCounter st) = Squat.resetCounter st := by
  cases h : st.squatState.angleDisplayTimer with
  | none => simp [Squat.resetCounter, h, Squat.resetSquatRep]
  | some tid => simp [Squat.resetCounter, h, Squat.resetSquatRep]

/-- C1 counterexample: in concrete scenario 1 the UP→DESCENDING
transition does not wait for the 90° frame — it already fires at the
first frame (knee angle 170 exceeds the 85° threshold), and the
`maxKneeAngle` frozen in the last-rep snapshot is 170, not 90. -/
theorem C1_counterexample :
    (Squat.runFrames Squat.initState
      (Squat.scenarioFrames.take 1)).squatState.descending = true ∧
    (Squat.runFrames Squat.initState
      Squat.scenarioFrames).displayAngles.maxKneeAngle ≠ 90 := by
  decide

/-- C1 (amended): feeding frames with knee angles
`[170, 120, 90, 70, 50, 20]` (hip and heel held at 90) produces the
UP→DESCENDING transition at the first (170°) frame — the first frame
whose knee angle exceeds 85 — the DESCENDING→UP transition at the 20°
frame, a final `repCount` of exactly 1, and `maxKneeAngle = 170` frozen
in the last-rep snapshot. -/
theorem C1_scenario :
    (Squat.runFrames Squat.initState
      (Squat.scenarioFrames.take 1)).squatState.descending = true ∧
    (Squat.runFrames Squat.initState
      (Squat.scenarioFrames.take 1)).squatStage = some .down ∧
    (Squat.runFrames Squat.initState
      (Squat.scenarioFrames.take 5)).squatState.descending = true ∧
    (Squat.runFrames Squat.initState
      (Squat.scenarioFrames.take 5)).squatCounter = 0 ∧
    (Squat.runFrames Squat.initState
      Squat.scenarioFrames).squatState.descending = false ∧
    (Squat.runFrames Squat.initState
      Squat.scenarioFrames).squatStage = some .up ∧
    (Squat.runFrames Squat.initState Squat.scenarioFrames).squatCounter = 1 ∧
    (Squat.runFrames Squat.initState
      Squat.scenarioFrames).displayAngles.maxKneeAngle = 170 ∧
    (Squat.runFrames Squat.initState
      Squat.scenarioFrames).displayAngles.showingLastRep = true := by
  decide

namespace Squat

lemma completeRep_warningMessages_of (t : ℤ) (lm : AngleSample)
    (st : AnalyzerState)
    (h : lm.kneeAngle < 30 ∧ st.squatState.descending = true) :
    (completeRep t lm st).warningMessages =
      if (depthCheck st.squatState).1.length > 0 then (depthCheck st.squatState).1
      else st.warningMessages := by
  rw [completeRep, if_pos (by exact ⟨h.1, h.2⟩)]
  cases h' : st.squatState.angleDisplayTimer <;>
    simp only [h', depthCheck] <;> split_ifs <;> simp_all

lemma completeRep_lastWarningTime_of (t : ℤ) (lm : AngleSample)
    (st : AnalyzerState)
    (h : lm.kneeAngle < 30 ∧ st.squatState.descending = true) :
    (completeRep t lm st).squatState.lastWarningTime =
      if (depthCheck st.squatState).1.length > 0 then t
      else st.squatState.lastWarningTime := by
  rw [completeRep, if_pos (by exact ⟨h.1, h.2⟩)]
  cases h' : st.squatState.angleDisplayTimer <;>
    simp only [h', depthCheck] <;> split_ifs <;> simp_all

lemma expireWarnings_of_recent (t : ℤ) (st : AnalyzerState)
    (h : t - st.squatState.lastWarningTime ≤ 2000) :
    expireWarnings t st = st := by
  rw [expireWarnings, if_neg]
  omega

end Squat

/-- C3 counterexample: complete a shallow repetition (its "not deep
enough" warning becomes active), then — with the warning still active —
complete a deep repetition.  The newly emitted "too deep" warning does
not join the active list; `setWarningMessages(newWarnings)` replaces it,
so the previously active warning is lost rather than retained. -/
theorem C3_counterexample :
    (Squat.runFrames Squat.initState
      Squat.shallowRepFrames).warningMessages = [Squat.notDeepMsg] ∧
    (Squat.runFrames Squat.initState
      (Squat.shallowRepFrames ++ Squat.deepRepFrames)).warningMessages =
      [Squat.tooDeepMsg] ∧
    Squat.notDeepMsg ∉ (Squat.runFrames Squat.initState
      (Squat.shallowRepFrames ++ Squat.deepRepFrames)).warningMessages := by
  decide

/-- C3 (amended): when the depth rule emits a warning at a repetition
completion, the active warning list is REPLACED by exactly the newly
emitted warnings (previously active warnings are dropped), and the
last-warning time is stamped with the current instant. -/
theorem C3_warnings_replace (st : Squat.AnalyzerState) (t : ℤ)
    (lm : Squat.AngleSample)
    (hflag : st.squatState.depthWarningGiven = false)
    (hd : st.squatState.descending = true)
    (hk : lm.kneeAngle < 30)
    (hemit : 140 < (Squat.analyzeSquat t (some lm) st).displayAngles.maxKneeAngle ∨
      (Squat.analyzeSquat t (some lm) st).displayAngles.maxKneeAngle < 100) :
    ((Squat.analyzeSquat t (some lm) st).warningMessages =
      if 140 < (Squat.analyzeSquat t (some lm) st).displayAngles.maxKneeAngle
      then [Squat.tooDeepMsg] else [Squat.notDeepMsg]) ∧
    (Squat.analyzeSquat t (some lm) st).squatState.lastWarningTime = t := by
  have hA : (Squat.setLiveAngles lm st).squatState = st.squatState :=
    Squat.setLiveAngles_squatState lm st
  have hsd : Squat.startDescent lm (Squat.setLiveAngles lm st) =
      Squat.setLiveAngles lm st :=
    Squat.startDescent_of_descending lm _ (by rw [hA, hd])
  have hstep : Squat.analyzeSquat t (some lm) st =
      Squat.expireWarnings t (Squat.completeRep t lm
        (Squat.trackDescent lm (Squat.setLiveAngles lm st))) := by
    rw [Squat.analyzeSquat, hsd]
  have hPd : (Squat.trackDescent lm
      (Squat.setLiveAngles lm st)).squatState.descending = true := by
    simp [hd]
  have hPflag : (Squat.trackDescent lm
      (Squat.setLiveAngles lm st)).squatState.depthWarningGiven = false := by
    simp [hflag]
  have hcomp : lm.kneeAngle < 30 ∧ (Squat.trackDescent lm
      (Squat.setLiveAngles lm st)).squatState.descending = true := ⟨hk, hPd⟩
  have hdisp := Squat.completeRep_displayAngles_of t lm _ hcomp
  have hrdisp : (Squat.analyzeSquat t (some lm) st).displayAngles.maxKneeAngle =
      (Squat.trackDescent lm
        (Squat.setLiveAngles lm st)).squatState.maxKneeAngle := by
    rw [hstep, Squat.expireWarnings_displayAngles, hdisp]
  rw [hrdisp] at hemit ⊢
  by_cases h140 : 140 < (Squat.trackDescent lm
      (Squat.setLiveAngles lm st)).squatState.maxKneeAngle
  · have hdc : Squat.depthCheck (Squat.trackDescent lm
        (Squat.setLiveAngles lm st)).squatState =
        ([Squat.tooDeepMsg], true) := by
      simp [Squat.depthCheck, hPflag, hflag, h140]
    have hw : (Squat.completeRep t lm (Squat.trackDescent lm
        (Squat.setLiveAngles lm st))).warningMessages = [Squat.tooDeepMsg] := by
      rw [Squat.completeRep_warningMessages_of t lm _ hcomp, hdc]
      simp
    have hlw : (Squat.completeRep t lm (Squat.trackDescent lm
        (Squat.setLiveAngles lm st))).squatState.lastWarningTime = t := by
      rw [Squat.completeRep_lastWarningTime_of t lm _ hcomp, hdc]
      simp
    have hexp : Squat.expireWarnings t (Squat.completeRep t lm
        (Squat.trackDescent lm (Squat.setLiveAngles lm st))) =
        Squat.completeRep t lm (Squat.trackDescent lm
          (Squat.setLiveAngles lm st)) :=
      Squat.expireWarnings_of_recent _ _ (by rw [hlw]; omega)
    rw [hstep, hexp, if_pos h140]
    exact ⟨hw, hlw⟩
  · have h100 : (Squat.trackDescent lm
        (Squat.setLiveAngles lm st)).squatState.maxKneeAngle < 100 := by
      rcases hemit with h | h
      · exact absurd h h140
      · exact h
    have hdc : Squat.depthCheck (Squat.trackDescent lm
        (Squat.setLiveAngles lm st)).squatState =
        ([Squat.notDeepMsg], true) := by
      simp only [Squat.depthCheck, hPflag]
      rw [if_pos (by simp [hflag]), if_neg h140, if_pos h100]
    have hw : (Squat.completeRep t lm (Squat.trackDescent lm
        (Squat.setLiveAngles lm st))).warningMessages = [Squat.notDeepMsg] := by
      rw [Squat.completeRep_warningMessages_of t lm _ hcomp, hdc]
      simp
    have hlw : (Squat.completeRep t lm (Squat.trackDescent lm
        (Squat.setLiveAngles lm st))).squatState.lastWarningTime = t := by
      rw [Squat.completeRep_lastWarningTime_of t lm _ hcomp, hdc]
      simp
    have hexp : Squat.expireWarnings t (Squat.completeRep t lm
        (Squat.trackDescent lm (Squat.setLiveAngles lm st))) =
        Squat.completeRep t lm (Squat.trackDescent lm
          (Squat.setLiveAngles lm st)) :=
      Squat.expireWarnings_of_recent _ _ (by rw [hlw]; omega)
    rw [hstep, hexp, if_neg h140]
    exact ⟨hw, hlw⟩

/-- Witness for C3 (amended) at a concrete deep completion: descending
with accumulated `maxKneeAngle = 0`, completing at knee angle 20 gives a
"not deep enough" emission that replaces the warning list. -/
theorem C3_witness :
    (Squat.analyzeSquat 7 (some ⟨20, 90, 90, 0⟩)
      Squat.descendingInit).warningMessages = [Squat.notDeepMsg] ∧
    (Squat.analyzeSquat 7 (some ⟨20, 90, 90, 0⟩)
      Squat.descendingInit).squatState.lastWarningTime = 7 := by
  have h := C3_warnings_replace Squat.descendingInit 7 ⟨20, 90, 90, 0⟩
    (by decide) (by decide) (by decide) (by decide)
  rcases h with ⟨h1, h2⟩
  refine ⟨?_, h2⟩
  rw [h1, if_neg (by decide)]

namespace Squat

lemma completeRep_depthWarningGiven_of (t : ℤ) (lm : AngleSample)
    (st : AnalyzerState)
    (h : lm.kneeAngle < 30 ∧ st.squatState.descending = true) :
    (completeRep t lm st).squatState.depthWarningGiven = false := by
  rw [completeRep, if_pos (by exact ⟨h.1, h.2⟩)]
  cases h' : st.squatState.angleDisplayTimer <;>
    simp only [h'] <;> split_ifs <;> rfl

/-- The depth rule never emits both depth warnings at once. -/
lemma depthCheck_exclusive (s : SquatRepState) :
    ¬ (tooDeepMsg ∈ (depthCheck s).1 ∧ notDeepMsg ∈ (depthCheck s).1) := by
  rw [depthCheck]
  split_ifs <;> simp [tooDeepMsg, notDeepMsg]

/-- On a non-completing frame the warning list is never rewritten with
fresh warnings: it is either untouched or cleared by the 2-second
expiry. -/
lemma analyzeSquat_warnings_not_complete (t : ℤ) (input : Option AngleSample)
    (st : AnalyzerState) (h : completesB st input = false) :
    (analyzeSquat t input st).warningMessages = st.warningMessages ∨
      (analyzeSquat t input st).warningMessages = [] := by
  cases input with
  | none => left; rfl
  | some lm =>
      have hnot : ¬ (lm.kneeAngle < 30 ∧ (trackDescent lm (startDescent lm
          (setLiveAngles lm st))).squatState.descending = true) := by
        rw [trackDescent_descending, startDescent_descending,
          setLiveAngles_squatState]
        intro hcontra
        rcases hcontra with ⟨hkk, hdd⟩
        rcases Bool.or_eq_true_iff.mp hdd with hd' | hd'
        · have : completesB st (some lm) = true := by
            simp [completesB, hkk, hd']
          rw [h] at this
          exact Bool.false_ne_true this
        · have := of_decide_eq_true hd'
          omega
      rw [analyzeSquat, completeRep_not _ _ _ hnot, expireWarnings]
      split_ifs
      · right; rfl
      · left; simp

end Squat

/-- C5: at a repetition completion the depth rule is evaluated once on
the frozen extremum (`maxKneeAngle` of the snapshot): above 140 it emits
exactly the "too deep" warning, below 100 exactly the "not deep enough"
warning, and in between neither (the list is then only untouched or
expired).  The two depth warnings are never emitted together, no
non-completing frame emits any warning, and the gating flag is cleared
for the next repetition, so each warning fires at most once per
repetition. -/
theorem C5_depth_rule (st : Squat.AnalyzerState) (t : ℤ)
    (lm : Squat.AngleSample)
    (hflag : st.squatState.depthWarningGiven = false)
    (hd : st.squatState.descending = true)
    (hk : lm.kneeAngle < 30) :
    (140 < (Squat.analyzeSquat t (some lm) st).displayAngles.maxKneeAngle →
      (Squat.analyzeSquat t (some lm) st).warningMessages =
        [Squat.tooDeepMsg]) ∧
    ((Squat.analyzeSquat t (some lm) st).displayAngles.maxKneeAngle < 100 →
      (Squat.analyzeSquat t (some lm) st).warningMessages =
        [Squat.notDeepMsg]) ∧
    (100 ≤ (Squat.analyzeSquat t (some lm) st).displayAngles.maxKneeAngle →
      (Squat.analyzeSquat t (some lm) st).displayAngles.maxKneeAngle ≤ 140 →
      ((Squat.analyzeSquat t (some lm) st).warningMessages =
        st.warningMessages ∨
        (Squat.analyzeSquat t (some lm) st).warningMessages = [])) ∧
    (∀ s' : Squat.SquatRepState,
      ¬ (Squat.tooDeepMsg ∈ (Squat.depthCheck s').1 ∧
        Squat.notDeepMsg ∈ (Squat.depthCheck s').1)) ∧
    (∀ (st' : Squat.AnalyzerState) (u : ℤ)
        (inp : Option Squat.AngleSample),
      Squat.completesB st' inp = false →
      ((Squat.analyzeSquat u inp st').warningMessages =
        st'.warningMessages ∨
        (Squat.analyzeSquat u inp st').warningMessages = [])) ∧
    (Squat.analyzeSquat t (some lm) st).squatState.depthWarningGiven =
      false := by
  have hA : (Squat.setLiveAngles lm st).squatState = st.squatState :=
    Squat.setLiveAngles_squatState lm st
  have hsd : Squat.startDescent lm (Squat.setLiveAngles lm st) =
      Squat.setLiveAngles lm st :=
    Squat.startDescent_of_descending lm _ (by rw [hA, hd])
  have hstep : Squat.analyzeSquat t (some lm) st =
      Squat.expireWarnings t (Squat.completeRep t lm
        (Squat.trackDescent lm (Squat.setLiveAngles lm st))) := by
    rw [Squat.analyzeSquat, hsd]
  have hPd : (Squat.trackDescent lm
      (Squat.setLiveAngles lm st)).squatState.descending = true := by
    simp [hd]
  have hPflag : (Squat.trackDescent lm
      (Squat.setLiveAngles lm st)).squatState.depthWarningGiven = false := by
    simp [hflag]
  have hPw : (Squat.trackDescent lm
      (Squat.setLiveAngles lm st)).warningMessages = st.warningMessages := by
    simp
  have hcomp : lm.kneeAngle < 30 ∧ (Squat.trackDescent lm
      (Squat.setLiveAngles lm st)).squatState.descending = true := ⟨hk, hPd⟩
  have hdisp := Squat.completeRep_displayAngles_of t lm _ hcomp
  have hrdisp : (Squat.analyzeSquat t (some lm) st).displayAngles.maxKneeAngle =
      (Squat.trackDescent lm
        (Squat.setLiveAngles lm st)).squatState.maxKneeAngle := by
    rw [hstep, Squat.expireWarnings_displayAngles, hdisp]
  refine ⟨?_, ?_, ?_, Squat.depthCheck_exclusive, ?_, ?_⟩
  · intro h140
    rw [hrdisp] at h140
    have hdc : Squat.depthCheck (Squat.trackDescent lm
        (Squat.setLiveAngles lm st)).squatState =
        ([Squat.tooDeepMsg], true) := by
      simp [Squat.depthCheck, hPflag, hflag, h140]
    have hw : (Squat.completeRep t lm (Squat.trackDescent lm
        (Squat.setLiveAngles lm st))).warningMessages = [Squat.tooDeepMsg] := by
      rw [Squat.completeRep_warningMessages_of t lm _ hcomp, hdc]
      simp
    have hlw : (Squat.completeRep t lm (Squat.trackDescent lm
        (Squat.setLiveAngles lm st))).squatState.lastWarningTime = t := by
      rw [Squat.completeRep_lastWarningTime_of t lm _ hcomp, hdc]
      simp
    rw [hstep, Squat.expireWarnings_of_recent _ _ (by rw [hlw]; omega), hw]
  · intro h100
    rw [hrdisp] at h100
    by_cases h140 : 140 < (Squat.trackDescent lm
        (Squat.setLiveAngles lm st)).squatState.maxKneeAngle
    · omega
    · have hdc : Squat.depthCheck (Squat.trackDescent lm
          (Squat.setLiveAngles lm st)).squatState =
          ([Squat.notDeepMsg], true) := by
        simp only [Squat.depthCheck, hPflag]
        rw [if_pos (by simp [hflag]), if_neg h140, if_pos h100]
      have hw : (Squat.completeRep t lm (Squat.trackDescent lm
          (Squat.setLiveAngles lm st))).warningMessages =
          [Squat.notDeepMsg] := by
        rw [Squat.completeRep_warningMessages_of t lm _ hcomp, hdc]
        simp
      have hlw : (Squat.completeRep t lm (Squat.trackDescent lm
          (Squat.setLiveAngles lm st))).squatState.lastWarningTime = t := by
        rw [Squat.completeRep_lastWarningTime_of t lm _ hcomp, hdc]
        simp
      rw [hstep, Squat.expireWarnings_of_recent _ _ (by rw [hlw]; omega), hw]
  · intro hge hle
    rw [hrdisp] at hge hle
    have hdc : Squat.depthCheck (Squat.trackDescent lm
        (Squat.setLiveAngles lm st)).squatState = ([], false) := by
      simp only [Squat.depthCheck, hPflag]
      rw [if_pos (by simp [hflag]), if_neg (by omega), if_neg (by omega)]
    have hw : (Squat.completeRep t lm (Squat.trackDescent lm
        (Squat.setLiveAngles lm st))).warningMessages =
        st.warningMessages := by
      rw [Squat.completeRep_warningMessages_of t lm _ hcomp, hdc]
      simp [hPw]
    rw [hstep, Squat.expireWarnings]
    split_ifs
    · right; rfl
    · left; simpa using hw
  · exact fun st' u inp h => Squat.analyzeSquat_warnings_not_complete u inp st' h
  · rw [hstep, Squat.expireWarnings_squatState,
      Squat.completeRep_depthWarningGiven_of t lm _ hcomp]

/-- Witness for C5 at a concrete shallow completion (frozen
`maxKneeAngle = 20 < 100`): exactly the "not deep enough" warning. -/
theorem C5_witness :
    (Squat.analyzeSquat 0 (some ⟨20, 90, 90, 0⟩)
      Squat.descendingInit).warningMessages = [Squat.notDeepMsg] :=
  (C5_depth_rule Squat.descendingInit 0 ⟨20, 90, 90, 0⟩ (by decide)
    (by decide) (by decide)).2.1 (by decide)

/-- C2 counterexample: the call `calculateAngle((0,0), (0,0), (1,1))` has
a zero-length vector `b→a`, and the code does NOT special-case it: the
`0/0` cosine division yields `NaN` (modelled `none`), and
`Math.max(-1, Math.min(1, NaN))`, `Math.acos`, `180 − ·` and `Math.round`
all propagate it, so the function returns `NaN` instead of a defensive
non-NaN fallback. -/
theorem C2_counterexample :
    CalcAngle.calculateAngle (0, 0) (0, 0) (1, 1) = none :=
  CalcAngle.calculateAngle_of_eq_left _ _ _ rfl

/-- C2 (amended): for every call in which vector `b→a` or `b→c` has
exactly zero length (coincident points), the undefined cosine division is
performed and produces `NaN`, which the clamp does not catch and which
propagates to the result; there is no defensive special case. -/
theorem C2_degenerate_nan (a b c : ℝ × ℝ) (h : a = b ∨ c = b) :
    CalcAngle.calculateAngle a b c = none := by
  rcases h with h | h
  · exact CalcAngle.calculateAngle_of_eq_left a b c h
  · exact CalcAngle.calculateAngle_of_eq_right a b c h

/-- Witness for C2 (amended) at a concrete degenerate call. -/
theorem C2_witness :
    CalcAngle.calculateAngle (1, 1) (1, 1) (2, 3) = none :=
  C2_degenerate_nan (1, 1) (1, 1) (2, 3) (Or.inl rfl)

/-- C8: for distinct points, `calculateAngle` returns 180 minus the
interior angle at vertex `b` (Mathlib's unoriented `EuclideanGeometry.angle`,
converted to degrees), rounded to the nearest integer, and in particular
`a=(0,0), b=(1,0), c=(1,1)` gives exactly 90. -/
theorem C8_exterior_angle (a b c : ℝ × ℝ) (h1 : b ≠ a) (h2 : b ≠ c) :
    CalcAngle.calculateAngle a b c =
      some (round (180 -
        EuclideanGeometry.angle (CalcAngle.toE2 a) (CalcAngle.toE2 b)
          (CalcAngle.toE2 c) * 180 / Real.pi)) ∧
    CalcAngle.calculateAngle (0, 0) (1, 0) (1, 1) = some 90 :=
  ⟨CalcAngle.calculateAngle_eq_exterior a b c h1 h2,
    CalcAngle.calculateAngle_right_angle⟩

/-- Witness for C8 at the spec's concrete right-angle input. -/
theorem C8_witness :
    CalcAngle.calculateAngle (0, 0) (1, 0) (1, 1) = some 90 :=
  (C8_exterior_angle (0, 0) (1, 0) (1, 1)
    (by norm_num [Prod.ext_iff]) (by norm_num [Prod.ext_iff])).2

namespace Squat

lemma completeRep_timers_of (t : ℤ) (lm : AngleSample) (st : AnalyzerState)
    (h : lm.kneeAngle < 30 ∧ st.squatState.descending = true) :
    (completeRep t lm st).timers =
      (match st.squatState.angleDisplayTimer with
        | some tid => st.timers.filter (fun p => p.1 ≠ tid)
        | none => st.timers) ++ [(st.nextTimerId, t + 3000)] := by
  rw [completeRep, if_pos (by exact ⟨h.1, h.2⟩)]
  cases h' : st.squatState.angleDisplayTimer <;>
    simp only [h'] <;> split_ifs <;> rfl

lemma completeRep_angleDisplayTimer_of (t : ℤ) (lm : AngleSample)
    (st : AnalyzerState)
    (h : lm.kneeAngle < 30 ∧ st.squatState.descending = true) :
    (completeRep t lm st).squatState.angleDisplayTimer =
      some st.nextTimerId := by
  rw [completeRep, if_pos (by exact ⟨h.1, h.2⟩)]
  cases h' : st.squatState.angleDisplayTimer <;>
    simp only [h'] <;> split_ifs <;> rfl

lemma completeRep_nextTimerId_of (t : ℤ) (lm : AngleSample)
    (st : AnalyzerState)
    (h : lm.kneeAngle < 30 ∧ st.squatState.descending = true) :
    (completeRep t lm st).nextTimerId = st.nextTimerId + 1 := by
  rw [completeRep, if_pos (by exact ⟨h.1, h.2⟩)]
  cases h' : st.squatState.angleDisplayTimer <;>
    simp only [h'] <;> split_ifs <;> rfl

lemma resetCounter_timers (st : AnalyzerState) :
    (resetCounter st).timers =
      match st.squatState.angleDisplayTimer with
      | some tid => st.timers.filter (fun p => p.1 ≠ tid)
      | none => st.timers := by
  cases h : st.squatState.angleDisplayTimer <;> simp [resetCounter, h]

lemma fireAngleDisplayTimer_of_empty (id : ℕ) (st : AnalyzerState)
    (h : st.timers = []) : fireAngleDisplayTimer id st = st := by
  rw [fireAngleDisplayTimer, if_neg]
  simp [h]

/-- With every pooled task bearing the stored handle, the
`clearTimeout`-style cancellation leaves the pool empty. -/
lemma cancelPending_eq_nil (timers : List (ℕ × ℤ)) (handle : Option ℕ)
    (h1 : ∀ p ∈ timers, handle = some p.1) :
    (match handle with
      | some tid => timers.filter (fun p => p.1 ≠ tid)
      | none => timers) = [] := by
  cases hh : handle with
  | none =>
      apply List.eq_nil_iff_forall_not_mem.mpr
      intro p hp
      have := h1 p hp
      rw [hh] at this
      exact Option.noConfusion this
  | some tid =>
      apply List.eq_nil_iff_forall_not_mem.mpr
      intro p hp
      rcases List.mem_filter.mp hp with ⟨hmem, hcond⟩
      have := h1 p hmem
      rw [hh] at this
      have hpt : p.1 = tid := (Option.some_injective _ this.symm)
      simp [hpt] at hcond

lemma analyzeSquat_not_complete_eq (t : ℤ) (lm : AngleSample)
    (st : AnalyzerState)
    (hnot : ¬ (lm.kneeAngle < 30 ∧ (trackDescent lm (startDescent lm
      (setLiveAngles lm st))).squatState.descending = true)) :
    analyzeSquat t (some lm) st =
      expireWarnings t (trackDescent lm (startDescent lm
        (setLiveAngles lm st))) := by
  rw [analyzeSquat, completeRep_not _ _ _ hnot]

/-- Every event preserves well-formedness of the snapshot-expiry pool. -/
lemma timersWF_step (st : AnalyzerState) (e : Event) (h : timersWF st) :
    timersWF (stepEvent st e) := by
  rcases h with ⟨h1, h2, h3⟩
  cases e with
  | frame t inp =>
      cases inp with
      | none => exact ⟨h1, h2, h3⟩
      | some lm =>
          by_cases hc : lm.kneeAngle < 30 ∧ (trackDescent lm
              (startDescent lm (setLiveAngles lm st))).squatState.descending
              = true
          · have hP1 : (trackDescent lm (startDescent lm
                (setLiveAngles lm st))).timers = st.timers := by simp
            have hP2 : (trackDescent lm (startDescent lm
                (setLiveAngles lm st))).squatState.angleDisplayTimer =
                st.squatState.angleDisplayTimer := by simp
            have hP3 : (trackDescent lm (startDescent lm
                (setLiveAngles lm st))).nextTimerId = st.nextTimerId := by
              simp
            have htim : (stepEvent st (.frame t (some lm))).timers =
                [(st.nextTimerId, t + 3000)] := by
              show (analyzeSquat t (some lm) st).timers = _
              rw [analyzeSquat, expireWarnings_timers,
                completeRep_timers_of t lm _ hc, hP1, hP2, hP3,
                cancelPending_eq_nil st.timers st.squatState.angleDisplayTimer
                  h1]
              rfl
            have hhan : (stepEvent st
                (.frame t (some lm))).squatState.angleDisplayTimer =
                some st.nextTimerId := by
              show (analyzeSquat t (some lm) st).squatState.angleDisplayTimer
                = _
              rw [analyzeSquat, expireWarnings_squatState,
                completeRep_angleDisplayTimer_of t lm _ hc, hP3]
            have hnid : (stepEvent st (.frame t (some lm))).nextTimerId =
                st.nextTimerId + 1 := by
              show (analyzeSquat t (some lm) st).nextTimerId = _
              rw [analyzeSquat, expireWarnings_nextTimerId,
                completeRep_nextTimerId_of t lm _ hc, hP3]
            refine ⟨?_, ?_, ?_⟩
            · intro p hp
              rw [htim] at hp
              rcases List.mem_singleton.mp hp with rfl
              rw [hhan]
            · rw [htim]
              simp
            · intro p hp
              rw [htim] at hp
              rcases List.mem_singleton.mp hp with rfl
              rw [hnid]
              omega
          · have heq : analyzeSquat t (some lm) st =
                expireWarnings t (trackDescent lm (startDescent lm
                  (setLiveAngles lm st))) :=
              analyzeSquat_not_complete_eq t lm st hc
            have e1 : (analyzeSquat t (some lm) st).timers = st.timers := by
              rw [heq]
              simp
            have e2 : (analyzeSquat t
                (some lm) st).squatState.angleDisplayTimer =
                st.squatState.angleDisplayTimer := by
              rw [heq]
              simp
            have e3 : (analyzeSquat t (some lm) st).nextTimerId =
                st.nextTimerId := by
              rw [heq]
              simp
            refine ⟨?_, ?_, ?_⟩
            · show ∀ p ∈ (analyzeSquat t (some lm) st).timers,
                (analyzeSquat t (some lm) st).squatState.angleDisplayTimer =
                  some p.1
              rw [e1, e2]
              exact h1
            · show (analyzeSquat t (some lm) st).timers.length ≤ 1
              rw [e1]
              exact h2
            · show ∀ p ∈ (analyzeSquat t (some lm) st).timers,
                p.1 < (analyzeSquat t (some lm) st).nextTimerId
              rw [e1, e3]
              exact h3
  | timerFire id =>
      show timersWF (fireAngleDisplayTimer id st)
      rw [fireAngleDisplayTimer]
      split_ifs with hsched
      · refine ⟨?_, ?_, ?_⟩
        · intro p hp
          rcases List.mem_filter.mp hp with ⟨hmem, hcond⟩
          rcases List.any_eq_true.mp hsched with ⟨q, hq, hqid⟩
          have hqid' : q.1 = id := by simpa using hqid
          have hpq : st.squatState.angleDisplayTimer = some q.1 := h1 q hq
          have hpp : st.squatState.angleDisplayTimer = some p.1 := h1 p hmem
          have : p.1 = id := by
            rw [hpq] at hpp
            rw [← Option.some_injective _ hpp, hqid']
          simp [this] at hcond
        · calc (st.timers.filter (fun p => p.1 ≠ id)).length
              ≤ st.timers.length := List.length_filter_le _ _
            _ ≤ 1 := h2
        · intro p hp
          exact h3 p (List.mem_of_mem_filter hp)
      · exact ⟨h1, h2, h3⟩
  | reset =>
      show timersWF (resetCounter st)
      have htim : (resetCounter st).timers = [] := by
        rw [resetCounter_timers]
        exact cancelPending_eq_nil st.timers st.squatState.angleDisplayTimer
          h1
      refine ⟨?_, ?_, ?_⟩ <;> rw [htim] <;> simp

lemma timersWF_run (st : AnalyzerState) (evs : List Event)
    (h : timersWF st) : timersWF (run st evs) := by
  induction evs generalizing st with
  | nil => exact h
  | cons e rest ih =>
      have h1 : run st (e :: rest) = run (stepEvent st e) rest := by
        simp [run]
      rw [h1]
      exact ih _ (timersWF_step st e h)

lemma timersWF_init : timersWF initState := by
  refine ⟨?_, ?_, ?_⟩ <;> simp [initState]

/-- A quiet frame (knee angle at least 30, or landmark-missing) while the
last-rep snapshot is showing leaves the snapshot, the timer pool, and the
stored handle untouched. -/
lemma quiet_step (st : AnalyzerState) (e : Event) (hq : quietEvent e)
    (hshow : st.displayAngles.showingLastRep = true) :
    (stepEvent st e).timers = st.timers ∧
      (stepEvent st e).displayAngles = st.displayAngles := by
  cases e with
  | frame t inp =>
      cases inp with
      | none => exact ⟨rfl, rfl⟩
      | some lm =>
          have hk : 30 ≤ lm.kneeAngle := hq
          have heq : analyzeSquat t (some lm) st =
              expireWarnings t (trackDescent lm (startDescent lm
                (setLiveAngles lm st))) :=
            analyzeSquat_not_complete_eq t lm st (by
              intro hcontra
              have := hcontra.1
              omega)
          constructor
          · show (analyzeSquat t (some lm) st).timers = st.timers
            rw [heq]
            simp
          · show (analyzeSquat t (some lm) st).displayAngles =
              st.displayAngles
            rw [heq, expireWarnings_displayAngles, trackDescent_displayAngles,
              startDescent_displayAngles, setLiveAngles_showing lm st hshow]
  | timerFire id => exact hq.elim
  | reset => exact hq.elim

/-- Quiet runs preserve the pending snapshot expiry and the showing
flag. -/
lemma quiet_run (st : AnalyzerState) (evs : List Event)
    (hq : ∀ e ∈ evs, quietEvent e)
    (hshow : st.displayAngles.showingLastRep = true) :
    (run st evs).timers = st.timers ∧
      (run st evs).displayAngles = st.displayAngles := by
  induction evs generalizing st with
  | nil => exact ⟨rfl, rfl⟩
  | cons e rest ih =>
      have hstep := quiet_step st e (hq e (List.mem_cons_self e rest)) hshow
      have h1 : run st (e :: rest) = run (stepEvent st e) rest := by
        simp [run]
      have hshow' : (stepEvent st e).displayAngles.showingLastRep = true := by
        rw [hstep.2]
        exact hshow
      have hrest := ih (stepEvent st e)
        (fun e' he' => hq e' (List.mem_cons_of_mem e he')) hshow'
      rw [h1, hrest.1, hrest.2, hstep.1, hstep.2]
      exact ⟨rfl, rfl⟩

end Squat

/-- C7: when a repetition completes at time `t`, the last-rep snapshot is
showing immediately and exactly one snapshot-expiry task is outstanding,
with deadline `t + 3000` ms (scheduling it cancelled any pending task, so
at most one is ever outstanding — also proved from the initial state for
arbitrary event sequences); over any quiet continuation (no intervening
repetition) the flag and the pending task persist, and the task's firing
then clears the flag; an external reset empties the pool, after which a
stale firing is a no-op. -/
theorem C7_snapshot_expiry (st : Squat.AnalyzerState) (t : ℤ)
    (lm : Squat.AngleSample) (evs : List Squat.Event)
    (hwf : Squat.timersWF st)
    (hd : st.squatState.descending = true)
    (hk : lm.kneeAngle < 30)
    (hq : ∀ e ∈ evs, Squat.quietEvent e) :
    (Squat.analyzeSquat t (some lm) st).displayAngles.showingLastRep =
      true ∧
    (Squat.analyzeSquat t (some lm) st).timers =
      [(st.nextTimerId, t + 3000)] ∧
    (Squat.analyzeSquat t (some lm) st).squatState.angleDisplayTimer =
      some st.nextTimerId ∧
    (Squat.run (Squat.analyzeSquat t (some lm) st)
      evs).displayAngles.showingLastRep = true ∧
    (Squat.run (Squat.analyzeSquat t (some lm) st) evs).timers =
      [(st.nextTimerId, t + 3000)] ∧
    (Squat.fireAngleDisplayTimer st.nextTimerId
      (Squat.run (Squat.analyzeSquat t (some lm) st)
        evs)).displayAngles.showingLastRep = false ∧
    (Squat.fireAngleDisplayTimer st.nextTimerId
      (Squat.run (Squat.analyzeSquat t (some lm) st) evs)).timers = [] ∧
    (Squat.resetCounter (Squat.analyzeSquat t (some lm) st)).timers = [] ∧
    (∀ id, Squat.fireAngleDisplayTimer id
      (Squat.resetCounter (Squat.analyzeSquat t (some lm) st)) =
      Squat.resetCounter (Squat.analyzeSquat t (some lm) st)) ∧
    (∀ evs' : List Squat.Event,
      (Squat.run Squat.initState evs').timers.length ≤ 1) := by
  have hA : (Squat.setLiveAngles lm st).squatState = st.squatState :=
    Squat.setLiveAngles_squatState lm st
  have hsd : Squat.startDescent lm (Squat.setLiveAngles lm st) =
      Squat.setLiveAngles lm st :=
    Squat.startDescent_of_descending lm _ (by rw [hA, hd])
  have hstep : Squat.analyzeSquat t (some lm) st =
      Squat.expireWarnings t (Squat.completeRep t lm
        (Squat.trackDescent lm (Squat.setLiveAngles lm st))) := by
    rw [Squat.analyzeSquat, hsd]
  have hPd : (Squat.trackDescent lm
      (Squat.setLiveAngles lm st)).squatState.descending = true := by
    simp [hd]
  have hcomp : lm.kneeAngle < 30 ∧ (Squat.trackDescent lm
      (Squat.setLiveAngles lm st)).squatState.descending = true := ⟨hk, hPd⟩
  have hP1 : (Squat.trackDescent lm (Squat.setLiveAngles lm st)).timers =
      st.timers := by simp
  have hP2 : (Squat.trackDescent lm
      (Squat.setLiveAngles lm st)).squatState.angleDisplayTimer =
      st.squatState.angleDisplayTimer := by simp
  have hP3 : (Squat.trackDescent lm
      (Squat.setLiveAngles lm st)).nextTimerId = st.nextTimerId := by simp
  have hr_show : (Squat.analyzeSquat t
      (some lm) st).displayAngles.showingLastRep = true := by
    rw [hstep, Squat.expireWarnings_displayAngles,
      Squat.completeRep_displayAngles_of t lm _ hcomp]
  have hr_tim : (Squat.analyzeSquat t (some lm) st).timers =
      [(st.nextTimerId, t + 3000)] := by
    rw [hstep, Squat.expireWarnings_timers,
      Squat.completeRep_timers_of t lm _ hcomp, hP1, hP2, hP3,
      Squat.cancelPending_eq_nil st.timers st.squatState.angleDisplayTimer
        hwf.1]
    rfl
  have hr_han : (Squat.analyzeSquat t
      (some lm) st).squatState.angleDisplayTimer = some st.nextTimerId := by
    rw [hstep, Squat.expireWarnings_squatState,
      Squat.completeRep_angleDisplayTimer_of t lm _ hcomp, hP3]
  have hqr := Squat.quiet_run (Squat.analyzeSquat t (some lm) st) evs hq
    hr_show
  have hruntim : (Squat.run (Squat.analyzeSquat t (some lm) st) evs).timers =
      [(st.nextTimerId, t + 3000)] := by
    rw [hqr.1, hr_tim]
  have hrunshow : (Squat.run (Squat.analyzeSquat t (some lm) st)
      evs).displayAngles.showingLastRep = true := by
    rw [hqr.2]
    exact hr_show
  have hguard : (Squat.run (Squat.analyzeSquat t (some lm) st)
      evs).timers.any (fun p => p.1 = st.nextTimerId) = true := by
    rw [hruntim]
    simp
  have hreset_tim : (Squat.resetCounter
      (Squat.analyzeSquat t (some lm) st)).timers = [] := by
    rw [Squat.resetCounter_timers, hr_han, hr_tim]
    simp
  refine ⟨hr_show, hr_tim, hr_han, hrunshow, hruntim, ?_, ?_, hreset_tim,
    ?_, ?_⟩
  · rw [Squat.fireAngleDisplayTimer, if_pos hguard]
  · rw [Squat.fireAngleDisplayTimer, if_pos hguard]
    rw [show (Squat.run (Squat.analyzeSquat t (some lm) st) evs).timers =
      [(st.nextTimerId, t + 3000)] from hruntim]
    simp
  · exact fun id => Squat.fireAngleDisplayTimer_of_empty id _ hreset_tim
  · exact fun evs' =>
      (Squat.timersWF_run Squat.initState evs' Squat.timersWF_init).2.1

/-- Witness for C7 at a concrete completion from a descending state with
an empty pool and no follow-up events. -/
theorem C7_witness :
    (Squat.analyzeSquat 0 (some ⟨20, 90, 90, 0⟩)
      Squat.descendingInit).displayAngles.showingLastRep = true ∧
    (Squat.analyzeSquat 0 (some ⟨20, 90, 90, 0⟩)
      Squat.descendingInit).timers =
      [(Squat.descendingInit.nextTimerId, 0 + 3000)] := by
  have h := C7_snapshot_expiry Squat.descendingInit 0 ⟨20, 90, 90, 0⟩ []
    (by refine ⟨?_, ?_, ?_⟩ <;>
      simp [Squat.descendingInit, Squat.initState])
    (by decide) (by decide) (by simp)
  exact ⟨h.1, h.2.1⟩

namespace SquatJS

lemma jsSetLiveAngles_squatState (lm : AngleSample) (st : AnalyzerState) :
    (setLiveAngles lm st).squatState = st.squatState := by
  simp only [setLiveAngles]
  split <;> rfl

lemma jsStartDescent_of_descending (lm : AngleSample) (st : AnalyzerState)
    (h : st.squatState.descending = true) : startDescent lm st = st := by
  simp [startDescent, h]

lemma jsTrackDescent_descending (lm : AngleSample) (st : AnalyzerState) :
    (trackDescent lm st).squatState.descending = st.squatState.descending := by
  simp only [trackDescent]
  split <;> rfl

lemma jsTrackDescent_minKneeAngle_of (lm : AngleSample) (st : AnalyzerState)
    (h : st.squatState.descending = true) :
    (trackDescent lm st).squatState.minKneeAngle =
      jsMin st.squatState.minKneeAngle lm.kneeAngle := by
  simp [trackDescent, h]

lemma jsExpireWarnings_displayAngles (t : ℤ) (st : AnalyzerState) :
    (expireWarnings t st).displayAngles = st.displayAngles := by
  simp only [expireWarnings]
  split <;> rfl

lemma jsCompleteRep_displayAngles_of (t : ℤ) (lm : AngleSample)
    (st : AnalyzerState)
    (h : (jsLtB lm.kneeAngle 30 && st.squatState.descending) = true) :
    (completeRep t lm st).displayAngles =
      { kneeAngle := lm.kneeAngle
        hipAngle := lm.hipAngle
        heelAngle := lm.heelAngle
        minKneeAngle := st.squatState.minKneeAngle
        minHipAngle := st.squatState.minHipAngle
        showingLastRep := true
        hipAnkleDiff := 0
        maxKneeAngle := st.squatState.maxKneeAngle
        maxHipAngle := st.squatState.maxHipAngle
        maxHeelAngle := st.squatState.maxHeelAngle
        minHipAnkleDiff := st.squatState.minHipAnkleDiff } := by
  rw [completeRep, if_pos h]
  cases h' : st.squatState.angleDisplayTimer <;>
    simp only [h'] <;> split_ifs <;> rfl

end SquatJS

/-- C10 counterexample: a three-frame descent whose middle frame carries
all six required landmarks but with the hip coincident with the knee.
`calculateAngle` returns `NaN` for that frame's knee angle (exactly the
degenerate case established for C2), the frame passes the line-1045
presence guard, and `Math.min(90, NaN) = NaN` poisons the running
minimum; the 20° frame then completes the repetition and freezes
`minKneeAngle = NaN` into the snapshot — not a value strictly below
30. -/
theorem C10_counterexample :
    (SquatJS.runFrames SquatJS.initState
      SquatJS.nanRepFrames).squatCounter = 1 ∧
    (SquatJS.runFrames SquatJS.initState
      SquatJS.nanRepFrames).displayAngles.showingLastRep = true ∧
    (SquatJS.runFrames SquatJS.initState
      SquatJS.nanRepFrames).displayAngles.minKneeAngle = none := by
  decide

/-- C10 (amended): after every completed repetition (a frame with a real
knee angle below 30 while descending), the `minKneeAngle` frozen into
the last-rep snapshot is either `NaN` — when a degenerate
coincident-landmark frame during the descent poisoned the extrema
through `Math.min` — or an integer strictly below 30: the while-descending
extrema update (lines 1139–1146) folds the completion frame's own knee
angle into the running minimum before the completion check at line 1149
freezes it. -/
theorem C10_snapshot_min_nan_or_below (st : SquatJS.AnalyzerState) (t : ℤ)
    (lm : SquatJS.AngleSample) (k : ℤ)
    (hd : st.squatState.descending = true)
    (hk : lm.kneeAngle = some k) (hk30 : k < 30) :
    (SquatJS.analyzeSquat t (some lm) st).displayAngles.minKneeAngle =
      none ∨
    ∃ m : ℤ, (SquatJS.analyzeSquat t
      (some lm) st).displayAngles.minKneeAngle = some m ∧ m < 30 := by
  have hA : (SquatJS.setLiveAngles lm st).squatState = st.squatState :=
    SquatJS.jsSetLiveAngles_squatState lm st
  have hsd : SquatJS.startDescent lm (SquatJS.setLiveAngles lm st) =
      SquatJS.setLiveAngles lm st :=
    SquatJS.jsStartDescent_of_descending lm _ (by rw [hA, hd])
  have hstep : SquatJS.analyzeSquat t (some lm) st =
      SquatJS.expireWarnings t (SquatJS.completeRep t lm
        (SquatJS.trackDescent lm (SquatJS.setLiveAngles lm st))) := by
    rw [SquatJS.analyzeSquat, hsd]
  have hPd : (SquatJS.trackDescent lm
      (SquatJS.setLiveAngles lm st)).squatState.descending = true := by
    rw [SquatJS.jsTrackDescent_descending, hA, hd]
  have hcond : (SquatJS.jsLtB lm.kneeAngle 30 && (SquatJS.trackDescent lm
      (SquatJS.setLiveAngles lm st)).squatState.descending) = true := by
    rw [hPd, hk]
    simp [SquatJS.jsLtB, hk30]
  have hmin : (SquatJS.trackDescent lm
      (SquatJS.setLiveAngles lm st)).squatState.minKneeAngle =
      SquatJS.jsMin st.squatState.minKneeAngle lm.kneeAngle := by
    rw [SquatJS.jsTrackDescent_minKneeAngle_of lm _ (by rw [hA, hd]), hA]
  rw [hstep, SquatJS.jsExpireWarnings_displayAngles,
    SquatJS.jsCompleteRep_displayAngles_of t lm _ hcond]
  simp only [hmin, hk]
  cases hm : st.squatState.minKneeAngle with
  | none =>
      left
      simp [SquatJS.jsMin]
  | some m0 =>
      right
      refine ⟨min m0 k, by simp [SquatJS.jsMin], ?_⟩
      exact lt_of_le_of_lt (min_le_right _ _) hk30

/-- Witness for C10 (amended) at a concrete completing frame from a
clean descent (no degenerate frame), landing in the below-30 branch. -/
theorem C10_witness :
    (SquatJS.analyzeSquat 0 (some ⟨some 20, some 90, some 90, 0⟩)
      SquatJS.descendingInit).displayAngles.minKneeAngle = none ∨
    ∃ m : ℤ, (SquatJS.analyzeSquat 0 (some ⟨some 20, some 90, some 90, 0⟩)
      SquatJS.descendingInit).displayAngles.minKneeAngle = some m ∧
      m < 30 :=
  C10_snapshot_min_nan_or_below SquatJS.descendingInit 0
    ⟨some 20, some 90, some 90, 0⟩ 20 (by decide) rfl (by decide)
